import Mathlib

/-!
Shallow embedding of the three `rita_messages` activities
(`send_complete_message.py`, `send_data_source_status.py`,
`send_document_processing_status.py`).

Conventions of the embedding:

* A Python value that may be `None` or a string is an `Option String`;
  Python truthiness of such a value is `truthyOS`.
* JSON documents are the inductive `Jval`; a Python dict with string keys is
  a `Jval.obj` over an association list in insertion order.
* `json.loads` / `json.dumps` are external collaborators (excluded by the
  spec), so an input that may be a JSON string or an already parsed value
  is the inductive `PyJsonIn`: `fromStr v` stands for a non-empty string
  that deserializes to `v` (a string that fails to parse only adds one more
  validation-error path of the same shape), `direct v` for the value itself.
* `datetime.now(timezone.utc).isoformat()` and the possible exceptions of
  `install_and_import` and `send_to_rabbitmq` are the environment `Env`:
  `now` is the clock reading, and `installFail` / `pubFail` carry the text
  of the exception when the corresponding external call raises (a raising
  publish hands nothing to the broker).
* Each `execute` returns the result JSON document together with the list of
  messages handed to `send_to_rabbitmq` during the call.
-/

/-- JSON values (the documents built and published by the activities). -/
inductive Jval where
  | null : Jval
  | bool : Bool → Jval
  | num : Int → Jval
  | str : String → Jval
  | arr : List Jval → Jval
  | obj : List (String × Jval) → Jval

/-- A message body: a Python dict with string keys, in insertion order. -/
abbrev Msg := List (String × Jval)

/-- First-match key lookup in a message (keys are inserted at most once). -/
def lookupKey (fs : Msg) (k : String) : Option Jval :=
  match fs with
  | [] => none
  | (k', v) :: rest => if k' = k then some v else lookupKey rest k

/-- The "status" field of a result document. -/
def jstatus (j : Jval) : Option Jval :=
  match j with
  | .obj fs => lookupKey fs "status"
  | _ => none

/-- The "error" field of a result document. -/
def jerror (j : Jval) : Option Jval :=
  match j with
  | .obj fs => lookupKey fs "error"
  | _ => none

/-- Decides whether the first character list is a prefix of the second. -/
def listIsPrefix : List Char → List Char → Bool
  | [], _ => true
  | _ :: _, [] => false
  | c :: cs, d :: ds => c == d && listIsPrefix cs ds

/-- Python startswith on strings, executable in the kernel. -/
def strStartsWith (s p : String) : Bool :=
  listIsPrefix p.data s.data

/-- Python lower on strings, executable in the kernel (ASCII, which covers
every string the activities compare after lowercasing). -/
def strLower (s : String) : String :=
  ⟨s.data.map Char.toLower⟩

/-- Python strip: drop whitespace from both ends (Python also strips a few
rarer control characters; the difference is immaterial here). -/
def strStrip (s : String) : String :=
  ⟨((s.data.dropWhile Char.isWhitespace).reverse.dropWhile
      Char.isWhitespace).reverse⟩

/-- Python truthiness of an optional string (`None` and `""` are falsy). -/
def truthyOS : Option String → Bool
  | none => false
  | some s => !s.isEmpty

/-- Embeds the default handling x = x if x else None (keep the value, no
stripping). -/
def normKeep (o : Option String) : Option String :=
  if truthyOS o then o else none

/-- Embeds the default handling x = x.strip() if x else None (note that a
blank string strips to the empty string, which is kept, not None). -/
def normStrip (o : Option String) : Option String :=
  if truthyOS o then some (strStrip (o.getD "")) else none

/-- Python truthiness of a JSON value. -/
def pyTruthy : Jval → Bool
  | .null => false
  | .bool b => b
  | .num n => n != 0
  | .str s => !s.isEmpty
  | .obj fs => !fs.isEmpty
  | .arr xs => !xs.isEmpty

/-- An input that Python accepts as `None`, a JSON string, or a value. -/
inductive PyJsonIn where
  | pynone : PyJsonIn
  | fromStr : Jval → PyJsonIn
  | direct : Jval → PyJsonIn

/-- Embeds x = x if x else None on such an input: a parseable JSON string
is non-empty, hence truthy; a direct value is kept when Python-truthy. -/
def PyJsonIn.norm : PyJsonIn → Option Jval
  | .pynone => none
  | .fromStr v => some v
  | .direct v => if pyTruthy v then some v else none

/-- The environment of one call: exception texts of the two external
operations when they raise (`none` = the call goes through), and the
clock reading used for `timestamp` fields. -/
structure Env where
  installFail : Option String
  pubFail : Option String
  now : String

/-- Builds the error result object carrying the given error string. -/
def errObj (s : String) : Jval :=
  .obj [("status", .str "error"), ("error", .str s)]

/-- Builds the validation-failure result, prefixing the message the way
the Python f-string does (a missing message prints as None). -/
def valErrObj (m : Option String) : Jval :=
  errObj ("Validation failed: " ++ m.getD "None")

/-- Embeds `validate_rabbitmq_url` (textually identical in all three
modules). -/
def validate_rabbitmq_url (rabbitmq_url queue_name : Option String) :
    Bool × Option String :=
  if !truthyOS rabbitmq_url then (false, some "rabbitmq_url is required")
  else if !truthyOS queue_name then (false, some "queue_name is required")
  else if !(strStartsWith (rabbitmq_url.getD "") "amqp://" ||
            strStartsWith (rabbitmq_url.getD "") "amqps://") then
    (false, some "rabbitmq_url must start with \x27amqp://\x27 or \x27amqps://\x27")
  else (true, none)

/-- Lowercase hex digit. -/
def isHexDigitLower (c : Char) : Bool :=
  c.isDigit || ('a' ≤ c && c ≤ 'f')

/-- Split a character list at every separator occurrence. -/
def splitCharsOn (sep : Char) : List Char → List Char → List (List Char)
  | [], acc => [acc.reverse]
  | c :: cs, acc =>
    if c == sep then acc.reverse :: splitCharsOn sep cs []
    else splitCharsOn sep cs (c :: acc)

/-- Splits a string at hyphens, as the UUID check does. -/
def splitOnHyphen (t : String) : List String :=
  (splitCharsOn '-' t.data []).map (fun l => ⟨l⟩)

/-- Models `uuid.UUID(s, version=4)` followed by the check
`str(uuid_obj) == s.lower()` from `validate_response_group_id`:
`uuid.UUID` accepts any 32-hex-digit string (optionally braced, urn-prefixed
or re-hyphenated) and then forces the version nibble to 4 and the variant
bits to RFC 4122, and `str` renders the canonical lowercase 8-4-4-4-12 form;
so the combined test succeeds exactly when the input, lowercased, is already
canonical with version nibble `4` and variant nibble in 8/9/a/b. -/
def isCanonicalUuid4 (s : String) : Bool :=
  let t := strLower s
  match splitOnHyphen t with
  | [a, b, c, d, e] =>
    a.length == 8 && b.length == 4 && c.length == 4 && d.length == 4 &&
    e.length == 12 &&
    (a.data ++ b.data ++ c.data ++ d.data ++ e.data).all isHexDigitLower &&
    strStartsWith c "4" &&
    (strStartsWith d "8" || strStartsWith d "9" || strStartsWith d "a" ||
     strStartsWith d "b")
  | _ => false

namespace SendCompleteMessage

/-- Embeds `validate_response_group_id` of `send_complete_message.py`. -/
def validate_response_group_id (response_group_id : Option String) :
    Bool × Option String :=
  if truthyOS response_group_id then
    if isCanonicalUuid4 (response_group_id.getD "") then (true, none)
    else (false, some "response_group_id must be a valid UUID v4")
  else (true, none)

/-- The per-item loop of the `sources` check in `validate_parameters`. -/
def validateSourcesFrom : List Jval → Nat → Bool × Option String
  | [], _ => (true, none)
  | j :: rest, idx =>
    match j with
    | .obj fields =>
      if (lookupKey fields "url").isNone then
        (false, some ("sources[" ++ toString idx ++
          "] missing required field \x27url\x27"))
      else if (lookupKey fields "title").isNone then
        (false, some ("sources[" ++ toString idx ++
          "] missing required field \x27title\x27"))
      else validateSourcesFrom rest (idx + 1)
    | _ => (false, some ("sources[" ++ toString idx ++ "] must be an object"))

/-- The per-item loop of the `tasks` check in `validate_parameters`. -/
def validateTasksFrom : List Jval → Nat → Bool × Option String
  | [], _ => (true, none)
  | j :: rest, idx =>
    match j with
    | .obj fields =>
      if (lookupKey fields "title").isNone then
        (false, some ("tasks[" ++ toString idx ++
          "] missing required field \x27title\x27"))
      else if (lookupKey fields "items").isNone then
        (false, some ("tasks[" ++ toString idx ++
          "] missing required field \x27items\x27"))
      else
        match lookupKey fields "items" with
        | some (.arr _) =>
          match lookupKey fields "defaultOpen" with
          | none => validateTasksFrom rest (idx + 1)
          | some (.bool _) => validateTasksFrom rest (idx + 1)
          | some _ =>
            (false, some ("tasks[" ++ toString idx ++
              "].defaultOpen must be a boolean"))
        | _ => (false, some ("tasks[" ++ toString idx ++
            "].items must be a list"))
    | _ => (false, some ("tasks[" ++ toString idx ++ "] must be an object"))

/-- Embeds `validate_parameters` of `send_complete_message.py`; `sources`
and `tasks` arrive already normalized (defaulted, strings parsed). -/
def validate_parameters (tenant_id message_id conversation_id : Option String)
    (sources tasks : Option Jval) : Bool × Option String :=
  if !truthyOS tenant_id then (false, some "tenant_id is required")
  else if !truthyOS message_id then (false, some "message_id is required")
  else if !truthyOS conversation_id then
    (false, some "conversation_id is required")
  else
    match
      (match sources with
       | none => (true, (none : Option String))
       | some (.arr xs) => validateSourcesFrom xs 0
       | some _ => (false, some "sources must be a list")) with
    | (false, m) => (false, m)
    | (true, _) =>
      match tasks with
      | none => (true, none)
      | some (.arr xs) => validateTasksFrom xs 0
      | some _ => (false, some "tasks must be a list")

/-- The `turn_complete` input: `None`, a string, or a boolean. -/
inductive PyTurnIn where
  | pynone : PyTurnIn
  | ofStr : String → PyTurnIn
  | ofBool : Bool → PyTurnIn

/-- The `turn_complete` conversion block of `execute`: empty/missing stays
`None`; a string becomes `lower() in ("true", "1", "yes")`; anything else
goes through `bool(...)`. -/
def normTurn : PyTurnIn → Option Bool
  | .pynone => none
  | .ofStr s =>
    if s.isEmpty then none
    else some (strLower s == "true" || strLower s == "1" ||
      strLower s == "yes")
  | .ofBool b => some b

/-- The `metadata["reasoning"]` entry (content, state, optional title). -/
def reasoningEntry (rc : String) (rt : Option String) : Jval :=
  .obj ([("content", .str rc), ("state", .str "done")] ++
    (match rt with | some t => [("title", .str t)] | none => []))

/-- The `metadata` dict built by `execute`, in insertion order. -/
def buildMetadata (rc rt : Option String) (srcs tsks : Option Jval)
    (tc : Option Bool) (cv : Option String) : Msg :=
  (match rc with | some r => [("reasoning", reasoningEntry r rt)] | none => []) ++
  (match srcs with | some v => [("sources", v)] | none => []) ++
  (match tsks with | some v => [("tasks", v)] | none => []) ++
  (match tc with | some b => [("turn_complete", .bool b)] | none => []) ++
  (match cv with | some s => [("citation_variant", .str s)] | none => [])

/-- The complete message assembled by `execute`. -/
def buildMessage (message_id conversation_id tenant_id text : String)
    (meta : Msg) (rgid : Option String) : Msg :=
  [("message_id", .str message_id), ("conversation_id", .str conversation_id),
   ("tenant_id", .str tenant_id), ("response", .str text)] ++
  (if meta.isEmpty then [] else [("metadata", .obj meta)]) ++
  (match rgid with | some r => [("response_group_id", .str r)] | none => [])

/-- The `has_content` check of `execute`: at least one of `text_content`
(non-whitespace), `reasoning_content`, `sources`, `tasks`. -/
def hasContent (text : String) (rc : Option String)
    (srcs tsks : Option Jval) : Bool :=
  (!text.isEmpty && !(strStrip text).isEmpty) || rc.isSome ||
    srcs.isSome || tsks.isSome

/-- The inputs of `execute` in `send_complete_message.py`. -/
structure Inputs where
  rabbitmq_url : Option String
  queue_name : Option String
  text_content : Option String
  reasoning_content : Option String
  reasoning_title : Option String
  sources : PyJsonIn
  tasks : PyJsonIn
  response_group_id : Option String
  tenant_id : Option String
  message_id : Option String
  conversation_id : Option String
  turn_complete : PyTurnIn
  citation_variant : Option String

/-- Embeds `execute` of `send_complete_message.py`: default handling, the
validation steps in source order, the content requirement, then assembly
and the single `send_to_rabbitmq` hand-off. -/
def execute (i : Inputs) (e : Env) : Jval × List Msg :=
  let text := i.text_content.getD ""
  let rc := normKeep i.reasoning_content
  let rt := normKeep i.reasoning_title
  let srcs := i.sources.norm
  let tsks := i.tasks.norm
  let rgid := normKeep i.response_group_id
  let tc := normTurn i.turn_complete
  let cv := normKeep i.citation_variant
  match validate_response_group_id rgid with
  | (false, m) => (valErrObj m, [])
  | (true, _) =>
    match validate_rabbitmq_url i.rabbitmq_url i.queue_name with
    | (false, m) => (valErrObj m, [])
    | (true, _) =>
      match validate_parameters i.tenant_id i.message_id i.conversation_id
          srcs tsks with
      | (false, m) => (valErrObj m, [])
      | (true, _) =>
        if !(hasContent text rc srcs tsks) then
          (errObj "Validation failed: at least one of text_content, reasoning_content, sources, or tasks is required", [])
        else
          match e.installFail with
          | some ex => (errObj ex, [])
          | none =>
            let message := buildMessage (i.message_id.getD "")
              (i.conversation_id.getD "") (i.tenant_id.getD "") text
              (buildMetadata rc rt srcs tsks tc cv) rgid
            match e.pubFail with
            | some ex => (errObj ex, [])
            | none =>
              (.obj [("status", .str "success"),
                     ("message_id", .str (i.message_id.getD "")),
                     ("message", .obj message)], [message])

/-- The fully assembled complete message as a function of the inputs. -/
def assembledMessage (i : Inputs) : Msg :=
  buildMessage (i.message_id.getD "") (i.conversation_id.getD "")
    (i.tenant_id.getD "") (i.text_content.getD "")
    (buildMetadata (normKeep i.reasoning_content) (normKeep i.reasoning_title)
      i.sources.norm i.tasks.norm (normTurn i.turn_complete)
      (normKeep i.citation_variant))
    (normKeep i.response_group_id)

end SendCompleteMessage

/-- The `documents_processed` input: `None`, an int, or a string. -/
inductive PyIntIn where
  | pynone : PyIntIn
  | ofInt : Int → PyIntIn
  | ofStr : String → PyIntIn

/-- Models the Python int builtin on a string: optional sign and decimal
digits after stripping surrounding whitespace. -/
def pyInt (s : String) : Option Int :=
  let t := (strStrip s).data
  let core :=
    match t with
    | '-' :: rest => some (true, rest)
    | '+' :: rest => some (false, rest)
    | rest => some (false, rest)
  match core with
  | some (neg, digits) =>
    if digits.isEmpty || !digits.all Char.isDigit then none
    else
      let v : Int :=
        digits.foldl (fun a c => a * 10 + (((c.toNat - 48 : Nat)) : Int)) 0
      some (if neg then -v else v)
  | none => none

namespace SendDataSourceStatus

/-- The `documents_processed` conversion block at the top of `execute`:
missing or empty stays `None`, otherwise `int(...)`, with a dedicated
error result when the conversion raises. -/
def convertDocumentsProcessed : PyIntIn → Except String (Option Int)
  | .pynone => .ok none
  | .ofInt n => .ok (some n)
  | .ofStr s =>
    if s.isEmpty then .ok none
    else
      match pyInt s with
      | some n => .ok (some n)
      | none => .error "documents_processed must be a valid integer"

/-- Embeds `validate_sync_message` of `send_data_source_status.py`. -/
def validate_sync_message
    (connection_id tenant_id status error_message : Option String)
    (documents_processed : Option Int) : Bool × Option String :=
  if !truthyOS connection_id then (false, some "connection_id is required")
  else if !truthyOS tenant_id then (false, some "tenant_id is required")
  else if !truthyOS status then (false, some "status is required")
  else if !(status.getD "" == "sync_started" ||
            status.getD "" == "sync_completed" ||
            status.getD "" == "sync_failed") then
    (false, some "status must be one of: sync_started, sync_completed, sync_failed")
  else if status.getD "" == "sync_completed" then
    match documents_processed with
    | some n =>
      if n < 0 then (false, some "documents_processed must be >= 0")
      else (true, none)
    | none => (true, none)
  else (true, none)

/-- Embeds `validate_verification_message` of `send_data_source_status.py`
(`verification_error` is accepted and unused, as in the source). -/
def validate_verification_message
    (connection_id tenant_id status : Option String)
    (verification_options : Option Jval)
    (verification_error : Option String) : Bool × Option String :=
  if !truthyOS connection_id then (false, some "connection_id is required")
  else if !truthyOS tenant_id then (false, some "tenant_id is required")
  else if !truthyOS status then (false, some "status is required")
  else if !(status.getD "" == "success" || status.getD "" == "failed") then
    (false, some "status must be one of: success, failed")
  else
    match verification_options with
    | some (.obj _) => (true, none)
    | some (.arr _) => (true, none)
    | some _ => (false, some "verification_options must be a JSON object or array")
    | none => (true, none)

/-- The inputs of `execute` in `send_data_source_status.py`. -/
structure Inputs where
  rabbitmq_url : Option String
  queue_name : Option String
  message_type : Option String
  connection_id : Option String
  tenant_id : Option String
  status : Option String
  error_message : Option String
  documents_processed : PyIntIn
  verification_options : PyJsonIn
  verification_error : Option String

/-- The status auto-derivation of the verification branch: an empty or
missing status becomes "failed" when `verification_error` is supplied and
"success" otherwise. -/
def derivedStatus (status verr : Option String) : Option String :=
  if truthyOS status then status
  else if truthyOS verr then some "failed" else some "success"

/-- The sync message assembled by `execute`, in insertion order. -/
def buildSyncMessage (conn tenant status em : Option String)
    (dp : Option Int) (now : String) : Msg :=
  [("type", Jval.str "sync"),
   ("connection_id", Jval.str (conn.getD "")),
   ("tenant_id", Jval.str (tenant.getD "")),
   ("status", Jval.str (status.getD "")),
   ("timestamp", Jval.str now)] ++
  (if truthyOS em then [("error_message", Jval.str (em.getD ""))]
   else []) ++
  (match dp with
   | some n => [("documents_processed", Jval.num n)]
   | none => [])

/-- The verification message assembled by `execute`: `options` and `error`
keys are always present, initialized to `None` and overwritten only when
the corresponding input was supplied. -/
def buildVerificationMessage (conn tenant status2 : Option String)
    (vopts : Option Jval) (verr : Option String) : Msg :=
  [("type", Jval.str "verification"),
   ("connection_id", Jval.str (conn.getD "")),
   ("tenant_id", Jval.str (tenant.getD "")),
   ("status", Jval.str (status2.getD "")),
   ("options", match vopts with | some v => v | none => Jval.null),
   ("error", if truthyOS verr then Jval.str (verr.getD "")
     else Jval.null)]

/-- The common tail of `execute`: `install_and_import`, the single
`send_to_rabbitmq` hand-off, and the success result. -/
def finish (message_type connection_id : Option String) (message : Msg)
    (e : Env) : Jval × List Msg :=
  match e.installFail with
  | some ex => (errObj ex, [])
  | none =>
    match e.pubFail with
    | some ex => (errObj ex, [])
    | none =>
      (.obj [("status", .str "success"),
             ("message_type", .str (message_type.getD "")),
             ("connection_id", .str (connection_id.getD "")),
             ("message", .obj message)], [message])

/-- Embeds `execute` of `send_data_source_status.py`: stripping defaults,
the `documents_processed` conversion, URL and `message_type` checks, then
the sync or verification branch (with the derived verification status),
and the single publish hand-off. -/
def execute (i : Inputs) (e : Env) : Jval × List Msg :=
  let mt := normStrip i.message_type
  let conn := normStrip i.connection_id
  let tenant := normStrip i.tenant_id
  let status := normStrip i.status
  let em := normStrip i.error_message
  let verr := normStrip i.verification_error
  let vopts := i.verification_options.norm
  match convertDocumentsProcessed i.documents_processed with
  | .error msg => (errObj msg, [])
  | .ok dp =>
    match validate_rabbitmq_url i.rabbitmq_url i.queue_name with
    | (false, m) => (valErrObj m, [])
    | (true, _) =>
      if !(truthyOS mt &&
           (mt.getD "" == "sync" || mt.getD "" == "verification")) then
        (errObj "message_type must be \x27sync\x27 or \x27verification\x27", [])
      else if mt.getD "" == "sync" then
        match validate_sync_message conn tenant status em dp with
        | (false, m) => (valErrObj m, [])
        | (true, _) =>
          finish mt conn (buildSyncMessage conn tenant status em dp e.now) e
      else
        let status2 := derivedStatus status verr
        match validate_verification_message conn tenant status2 vopts verr with
        | (false, m) => (valErrObj m, [])
        | (true, _) =>
          finish mt conn
            (buildVerificationMessage conn tenant status2 vopts verr) e

end SendDataSourceStatus

namespace SendDocumentProcessingStatus

/-- Embeds `validate_message` of `send_document_processing_status.py`. -/
def validate_message (blob_metadata_id tenant_id status : Option String) :
    Bool × Option String :=
  if !truthyOS blob_metadata_id then
    (false, some "blob_metadata_id is required")
  else if !truthyOS tenant_id then (false, some "tenant_id is required")
  else if !truthyOS status then (false, some "status is required")
  else if !(status.getD "" == "processing_completed" ||
            status.getD "" == "processing_failed") then
    (false, some "status must be one of: processing_completed, processing_failed")
  else (true, none)

/-- The inputs of `execute` in `send_document_processing_status.py`. -/
structure Inputs where
  rabbitmq_url : Option String
  queue_name : Option String
  blob_metadata_id : Option String
  tenant_id : Option String
  user_id : Option String
  status : Option String
  processed_markdown : Option String
  error_message : Option String

/-- The document-processing message assembled by `execute`. -/
def buildDocMessage (blob tenant status user pm em : Option String)
    (now : String) : Msg :=
  [("type", Jval.str "document_processing"),
   ("blob_metadata_id", Jval.str (blob.getD "")),
   ("tenant_id", Jval.str (tenant.getD "")),
   ("status", Jval.str (status.getD "")),
   ("timestamp", Jval.str now)] ++
  (if truthyOS user then [("user_id", Jval.str (user.getD ""))]
   else []) ++
  (if truthyOS pm then
    [("processed_markdown", Jval.str (pm.getD ""))] else []) ++
  (if truthyOS em then [("error_message", Jval.str (em.getD ""))]
   else [])

/-- Embeds `execute` of `send_document_processing_status.py`. -/
def execute (i : Inputs) (e : Env) : Jval × List Msg :=
  let blob := normStrip i.blob_metadata_id
  let tenant := normStrip i.tenant_id
  let user := normStrip i.user_id
  let status := normStrip i.status
  let pm := normStrip i.processed_markdown
  let em := normStrip i.error_message
  match validate_rabbitmq_url i.rabbitmq_url i.queue_name with
  | (false, m) => (valErrObj m, [])
  | (true, _) =>
    match validate_message blob tenant status with
    | (false, m) => (valErrObj m, [])
    | (true, _) =>
      let message := buildDocMessage blob tenant status user pm em e.now
      match e.installFail with
      | some ex => (errObj ex, [])
      | none =>
        match e.pubFail with
        | some ex => (errObj ex, [])
        | none =>
          (.obj [("status", .str "success"),
                 ("blob_metadata_id", .str (blob.getD "")),
                 ("processing_status", .str (status.getD "")),
                 ("message", .obj message)], [message])

end SendDocumentProcessingStatus

mutual

/-- Remove every `timestamp` field, recursively, from a JSON value. -/
def scrubTimestamp : Jval → Jval
  | .null => .null
  | .bool b => .bool b
  | .num n => .num n
  | .str s => .str s
  | .arr xs => .arr (scrubTimestampList xs)
  | .obj fs => .obj (scrubTimestampFields fs)

/-- Remove every `timestamp` field from each element of a JSON array. -/
def scrubTimestampList : List Jval → List Jval
  | [] => []
  | j :: rest => scrubTimestamp j :: scrubTimestampList rest

/-- Remove every `timestamp` field from an object field list. -/
def scrubTimestampFields : List (String × Jval) → List (String × Jval)
  | [] => []
  | (k, v) :: rest =>
    if k = "timestamp" then scrubTimestampFields rest
    else (k, scrubTimestamp v) :: scrubTimestampFields rest

end

/-- Apply `scrubTimestamp` to a result-and-publishes pair. -/
def scrubPair (p : Jval × List Msg) : Jval × List Msg :=
  (scrubTimestamp p.1, p.2.map scrubTimestampFields)

/-- A result is a validation error: its error field starts with
"Validation failed: ". -/
def isValidationError (j : Jval) : Bool :=
  match jerror j with
  | some (.str s) => strStartsWith s "Validation failed: "
  | _ => false

/-! Case-analysis lemmas.

Each `execute` either returns an error result having published nothing, or
passes every validation step and publishes the assembled message exactly
once together with the success result. -/

theorem validate_rabbitmq_url_cases (u q : Option String) :
    validate_rabbitmq_url u q = (true, none) ∨
    ∃ m, validate_rabbitmq_url u q = (false, some m) := by
  unfold validate_rabbitmq_url
  split
  · exact Or.inr ⟨_, rfl⟩
  · split
    · exact Or.inr ⟨_, rfl⟩
    · split
      · exact Or.inr ⟨_, rfl⟩
      · exact Or.inl rfl

namespace SendCompleteMessage

theorem validate_response_group_id_cases (o : Option String) :
    validate_response_group_id o = (true, none) ∨
    ∃ m, validate_response_group_id o = (false, some m) := by
  unfold validate_response_group_id
  split
  · split
    · exact Or.inl rfl
    · exact Or.inr ⟨_, rfl⟩
  · exact Or.inl rfl

theorem validateSourcesFrom_cases (xs : List Jval) (n : Nat) :
    validateSourcesFrom xs n = (true, none) ∨
    ∃ m, validateSourcesFrom xs n = (false, some m) := by
  induction xs generalizing n with
  | nil => exact Or.inl rfl
  | cons j rest ih =>
    unfold validateSourcesFrom
    rcases j with _ | _ | _ | _ | _ | fields
    case obj =>
      dsimp only
      split
      · exact Or.inr ⟨_, rfl⟩
      · split
        · exact Or.inr ⟨_, rfl⟩
        · exact ih (n + 1)
    all_goals exact Or.inr ⟨_, rfl⟩

theorem validateTasksFrom_cases (xs : List Jval) (n : Nat) :
    validateTasksFrom xs n = (true, none) ∨
    ∃ m, validateTasksFrom xs n = (false, some m) := by
  induction xs generalizing n with
  | nil => exact Or.inl rfl
  | cons j rest ih =>
    unfold validateTasksFrom
    rcases j with _ | _ | _ | _ | _ | fields
    case obj =>
      dsimp only
      split
      · exact Or.inr ⟨_, rfl⟩
      · split
        · exact Or.inr ⟨_, rfl⟩
        · split
          · split
            · exact ih (n + 1)
            · exact ih (n + 1)
            · exact Or.inr ⟨_, rfl⟩
          · exact Or.inr ⟨_, rfl⟩
    all_goals exact Or.inr ⟨_, rfl⟩

theorem validate_parameters_cases (t m c : Option String)
    (srcs tsks : Option Jval) :
    validate_parameters t m c srcs tsks = (true, none) ∨
    ∃ s, validate_parameters t m c srcs tsks = (false, some s) := by
  unfold validate_parameters
  split
  · exact Or.inr ⟨_, rfl⟩
  · split
    · exact Or.inr ⟨_, rfl⟩
    · split
      · exact Or.inr ⟨_, rfl⟩
      · rcases srcs with _ | v
        · dsimp only
          rcases tsks with _ | w
          · exact Or.inl rfl
          · rcases w with _ | _ | _ | _ | ws | _
            case arr => exact validateTasksFrom_cases ws 0
            all_goals exact Or.inr ⟨_, rfl⟩
        · rcases v with _ | _ | _ | _ | vs | _
          case arr =>
            dsimp only
            rcases validateSourcesFrom_cases vs 0 with h | ⟨s, h⟩
            · rw [h]
              rcases tsks with _ | w
              · exact Or.inl rfl
              · rcases w with _ | _ | _ | _ | ws | _
                case arr => exact validateTasksFrom_cases ws 0
                all_goals exact Or.inr ⟨_, rfl⟩
            · rw [h]
              exact Or.inr ⟨_, rfl⟩
          all_goals
            dsimp only
            exact Or.inr ⟨_, rfl⟩

theorem complete_execute_cases (i : Inputs) (e : Env) :
    (∃ s, execute i e = (errObj s, [])) ∨
    (validate_response_group_id (normKeep i.response_group_id) =
       (true, none) ∧
     validate_rabbitmq_url i.rabbitmq_url i.queue_name = (true, none) ∧
     validate_parameters i.tenant_id i.message_id i.conversation_id
       i.sources.norm i.tasks.norm = (true, none) ∧
     hasContent (i.text_content.getD "") (normKeep i.reasoning_content)
       i.sources.norm i.tasks.norm = true ∧
     e.installFail = none ∧ e.pubFail = none ∧
     execute i e =
       (.obj [("status", .str "success"),
              ("message_id", .str (i.message_id.getD "")),
              ("message", .obj (assembledMessage i))],
        [assembledMessage i])) := by
  rcases validate_response_group_id_cases (normKeep i.response_group_id)
    with h1 | ⟨m1, h1⟩
  · rcases validate_rabbitmq_url_cases i.rabbitmq_url i.queue_name
      with h2 | ⟨m2, h2⟩
    · rcases validate_parameters_cases i.tenant_id i.message_id
        i.conversation_id i.sources.norm i.tasks.norm with h3 | ⟨m3, h3⟩
      · cases hc : hasContent (i.text_content.getD "")
          (normKeep i.reasoning_content) i.sources.norm i.tasks.norm
        · exact Or.inl ⟨_, by simp only [execute, h1, h2, h3, hc]; rfl⟩
        · rcases hif : e.installFail with _ | ex
          · rcases hpf : e.pubFail with _ | ex
            · refine Or.inr ⟨h1, h2, h3, rfl, rfl, rfl, ?_⟩
              simp only [execute, h1, h2, h3, hc, hif, hpf]
              rfl
            · exact Or.inl ⟨ex, by
                simp only [execute, h1, h2, h3, hc, hif, hpf]; rfl⟩
          · exact Or.inl ⟨ex, by
              simp only [execute, h1, h2, h3, hc, hif]; rfl⟩
      · exact Or.inl ⟨_, by simp only [execute, h1, h2, h3]; rfl⟩
    · exact Or.inl ⟨_, by simp only [execute, h1, h2]; rfl⟩
  · exact Or.inl ⟨_, by simp only [execute, h1]; rfl⟩

end SendCompleteMessage

/-- A truthy optional string whose default-extracted value is `s` is
exactly `some s`. -/
theorem truthy_getD_eq (o : Option String) (s : String)
    (h1 : truthyOS o = true) (h2 : o.getD "" = s) :
    o = some s := by
  cases o with
  | none => simp [truthyOS] at h1
  | some t => rw [Option.getD] at h2; rw [h2]

namespace SendDataSourceStatus

theorem convertDocumentsProcessed_cases (d : PyIntIn) :
    (∃ dp, convertDocumentsProcessed d = .ok dp) ∨
    convertDocumentsProcessed d =
      .error "documents_processed must be a valid integer" := by
  cases d with
  | pynone => exact Or.inl ⟨_, rfl⟩
  | ofInt n => exact Or.inl ⟨_, rfl⟩
  | ofStr s =>
    simp only [convertDocumentsProcessed]
    split
    · exact Or.inl ⟨_, rfl⟩
    · split
      · exact Or.inl ⟨_, rfl⟩
      · exact Or.inr rfl

theorem validate_sync_message_cases (c t s em : Option String)
    (dp : Option Int) :
    validate_sync_message c t s em dp = (true, none) ∨
    ∃ m, validate_sync_message c t s em dp = (false, some m) := by
  unfold validate_sync_message
  split
  · exact Or.inr ⟨_, rfl⟩
  · split
    · exact Or.inr ⟨_, rfl⟩
    · split
      · exact Or.inr ⟨_, rfl⟩
      · split
        · exact Or.inr ⟨_, rfl⟩
        · split
          · split
            · split
              · exact Or.inr ⟨_, rfl⟩
              · exact Or.inl rfl
            · exact Or.inl rfl
          · exact Or.inl rfl

theorem validate_verification_message_cases (c t s : Option String)
    (vopts : Option Jval) (verr : Option String) :
    validate_verification_message c t s vopts verr = (true, none) ∨
    ∃ m, validate_verification_message c t s vopts verr =
      (false, some m) := by
  unfold validate_verification_message
  split
  · exact Or.inr ⟨_, rfl⟩
  · split
    · exact Or.inr ⟨_, rfl⟩
    · split
      · exact Or.inr ⟨_, rfl⟩
      · split
        · exact Or.inr ⟨_, rfl⟩
        · split
          · exact Or.inl rfl
          · exact Or.inl rfl
          · exact Or.inr ⟨_, rfl⟩
          · exact Or.inl rfl

theorem data_source_execute_cases (i : Inputs) (e : Env) :
    (∃ s, execute i e = (errObj s, [])) ∨
    (∃ dp, convertDocumentsProcessed i.documents_processed = .ok dp ∧
     validate_rabbitmq_url i.rabbitmq_url i.queue_name = (true, none) ∧
     normStrip i.message_type = some "sync" ∧
     validate_sync_message (normStrip i.connection_id)
       (normStrip i.tenant_id) (normStrip i.status)
       (normStrip i.error_message) dp = (true, none) ∧
     e.installFail = none ∧ e.pubFail = none ∧
     execute i e =
       (.obj [("status", .str "success"),
              ("message_type", .str ((normStrip i.message_type).getD "")),
              ("connection_id",
                .str ((normStrip i.connection_id).getD "")),
              ("message", .obj (buildSyncMessage (normStrip i.connection_id)
                (normStrip i.tenant_id) (normStrip i.status)
                (normStrip i.error_message) dp e.now))],
        [buildSyncMessage (normStrip i.connection_id)
          (normStrip i.tenant_id) (normStrip i.status)
          (normStrip i.error_message) dp e.now])) ∨
    (∃ dp, convertDocumentsProcessed i.documents_processed = .ok dp ∧
     validate_rabbitmq_url i.rabbitmq_url i.queue_name = (true, none) ∧
     normStrip i.message_type = some "verification" ∧
     validate_verification_message (normStrip i.connection_id)
       (normStrip i.tenant_id)
       (derivedStatus (normStrip i.status) (normStrip i.verification_error))
       i.verification_options.norm (normStrip i.verification_error) =
       (true, none) ∧
     e.installFail = none ∧ e.pubFail = none ∧
     execute i e =
       (.obj [("status", .str "success"),
              ("message_type", .str ((normStrip i.message_type).getD "")),
              ("connection_id",
                .str ((normStrip i.connection_id).getD "")),
              ("message", .obj (buildVerificationMessage
                (normStrip i.connection_id) (normStrip i.tenant_id)
                (derivedStatus (normStrip i.status)
                  (normStrip i.verification_error))
                i.verification_options.norm
                (normStrip i.verification_error)))],
        [buildVerificationMessage (normStrip i.connection_id)
          (normStrip i.tenant_id)
          (derivedStatus (normStrip i.status)
            (normStrip i.verification_error))
          i.verification_options.norm
          (normStrip i.verification_error)])) := by
  rcases convertDocumentsProcessed_cases i.documents_processed with
    ⟨dp, hdp⟩ | hdp
  · rcases validate_rabbitmq_url_cases i.rabbitmq_url i.queue_name with
      h2 | ⟨m2, h2⟩
    · rcases Bool.eq_false_or_eq_true (truthyOS (normStrip i.message_type) &&
        ((normStrip i.message_type).getD "" == "sync" ||
         (normStrip i.message_type).getD "" == "verification"))
        with hmt | hmt
      · have hmt' := hmt
        rw [Bool.and_eq_true] at hmt'
        by_cases hs : (normStrip i.message_type).getD "" = "sync"
        · rcases validate_sync_message_cases (normStrip i.connection_id)
            (normStrip i.tenant_id) (normStrip i.status)
            (normStrip i.error_message) dp with h3 | ⟨m3, h3⟩
          · rcases hif : e.installFail with _ | ex
            · rcases hpf : e.pubFail with _ | ex
              · refine Or.inr (Or.inl ⟨dp, hdp, h2,
                  truthy_getD_eq _ _ hmt'.1 hs, h3, rfl, rfl, ?_⟩)
                simp [execute, hdp, h2, hmt, hmt'.1, hs, h3, finish, hif, hpf]
              · exact Or.inl ⟨ex, by
                  simp [execute, hdp, h2, hmt, hmt'.1, hs, h3, finish, hif, hpf]⟩
            · exact Or.inl ⟨ex, by
                simp [execute, hdp, h2, hmt, hmt'.1, hs, h3, finish, hif]⟩
          · exact Or.inl ⟨"Validation failed: " ++ m3, by
              simp [execute, hdp, h2, hmt, hmt'.1, hs, h3, valErrObj, errObj]⟩
        · have hv : (normStrip i.message_type).getD "" = "verification" := by
            have hor := hmt'.2
            rw [Bool.or_eq_true] at hor
            rcases hor with h | h
            · exact absurd (beq_iff_eq.mp h) hs
            · exact beq_iff_eq.mp h
          rcases validate_verification_message_cases
            (normStrip i.connection_id) (normStrip i.tenant_id)
            (derivedStatus (normStrip i.status)
              (normStrip i.verification_error))
            i.verification_options.norm (normStrip i.verification_error)
            with h3 | ⟨m3, h3⟩
          · rcases hif : e.installFail with _ | ex
            · rcases hpf : e.pubFail with _ | ex
              · refine Or.inr (Or.inr ⟨dp, hdp, h2,
                  truthy_getD_eq _ _ hmt'.1 hv, h3, rfl, rfl, ?_⟩)
                simp [execute, hdp, h2, hmt, hmt'.1, hs, hv, h3, finish, hif, hpf]
              · exact Or.inl ⟨ex, by
                  simp [execute, hdp, h2, hmt, hmt'.1, hs, hv, h3, finish, hif, hpf]⟩
            · exact Or.inl ⟨ex, by
                simp [execute, hdp, h2, hmt, hmt'.1, hs, hv, h3, finish, hif]⟩
          · exact Or.inl ⟨"Validation failed: " ++ m3, by
              simp [execute, hdp, h2, hmt, hmt'.1, hs, hv, h3, valErrObj, errObj]⟩
      · exact Or.inl
          ⟨"message_type must be \x27sync\x27 or \x27verification\x27", by
            simp [execute, hdp, h2, hmt]⟩
    · exact Or.inl ⟨"Validation failed: " ++ m2, by
        simp [execute, hdp, h2, valErrObj, errObj]⟩
  · exact Or.inl ⟨"documents_processed must be a valid integer", by
      simp [execute, hdp]⟩

end SendDataSourceStatus

namespace SendDocumentProcessingStatus

theorem validate_message_cases (b t s : Option String) :
    validate_message b t s = (true, none) ∨
    ∃ m, validate_message b t s = (false, some m) := by
  unfold validate_message
  split
  · exact Or.inr ⟨_, rfl⟩
  · split
    · exact Or.inr ⟨_, rfl⟩
    · split
      · exact Or.inr ⟨_, rfl⟩
      · split
        · exact Or.inr ⟨_, rfl⟩
        · exact Or.inl rfl

theorem doc_execute_cases (i : Inputs) (e : Env) :
    (∃ s, execute i e = (errObj s, [])) ∨
    (validate_rabbitmq_url i.rabbitmq_url i.queue_name = (true, none) ∧
     validate_message (normStrip i.blob_metadata_id) (normStrip i.tenant_id)
       (normStrip i.status) = (true, none) ∧
     e.installFail = none ∧ e.pubFail = none ∧
     execute i e =
       (.obj [("status", .str "success"),
              ("blob_metadata_id",
                .str ((normStrip i.blob_metadata_id).getD "")),
              ("processing_status", .str ((normStrip i.status).getD "")),
              ("message", .obj (buildDocMessage
                (normStrip i.blob_metadata_id) (normStrip i.tenant_id)
                (normStrip i.status) (normStrip i.user_id)
                (normStrip i.processed_markdown)
                (normStrip i.error_message) e.now))],
        [buildDocMessage (normStrip i.blob_metadata_id)
          (normStrip i.tenant_id) (normStrip i.status)
          (normStrip i.user_id) (normStrip i.processed_markdown)
          (normStrip i.error_message) e.now])) := by
  rcases validate_rabbitmq_url_cases i.rabbitmq_url i.queue_name with
    h1 | ⟨m1, h1⟩
  · rcases validate_message_cases (normStrip i.blob_metadata_id)
      (normStrip i.tenant_id) (normStrip i.status) with h2 | ⟨m2, h2⟩
    · rcases hif : e.installFail with _ | ex
      · rcases hpf : e.pubFail with _ | ex
        · refine Or.inr ⟨h1, h2, rfl, rfl, ?_⟩
          simp only [execute, h1, h2, hif, hpf]
        · exact Or.inl ⟨ex, by simp only [execute, h1, h2, hif, hpf]⟩
      · exact Or.inl ⟨ex, by simp only [execute, h1, h2, hif]⟩
    · exact Or.inl ⟨"Validation failed: " ++ m2, by
        simp [execute, h1, h2, valErrObj, errObj]⟩
  · exact Or.inl ⟨"Validation failed: " ++ m1, by
      simp [execute, h1, valErrObj, errObj]⟩

end SendDocumentProcessingStatus

/-! Helper lemmas for the claim theorems. -/

theorem jstatus_errObj (s : String) :
    jstatus (errObj s) = some (.str "error") := rfl

theorem jerror_errObj (s : String) : jerror (errObj s) = some (.str s) := rfl

theorem jstatus_valErrObj (m : Option String) :
    jstatus (valErrObj m) = some (.str "error") := rfl

theorem jstatus_statusCons (v : Jval) (r : Msg) :
    jstatus (.obj (("status", v) :: r)) = some v := rfl

/-- C1: each of the three execute operations either publishes exactly one
message and returns a success result, or returns an error result having
published nothing; a success is only reached after every validation step
(URL and type-specific) returned valid. -/
theorem publishes_once_on_success_nothing_on_error :
    (∀ (i : SendCompleteMessage.Inputs) (e : Env),
      (jstatus (SendCompleteMessage.execute i e).1 = some (.str "error") →
        (SendCompleteMessage.execute i e).2 = []) ∧
      (jstatus (SendCompleteMessage.execute i e).1 = some (.str "success") →
        (SendCompleteMessage.execute i e).2.length = 1 ∧
        SendCompleteMessage.validate_response_group_id
          (normKeep i.response_group_id) = (true, none) ∧
        validate_rabbitmq_url i.rabbitmq_url i.queue_name = (true, none) ∧
        SendCompleteMessage.validate_parameters i.tenant_id i.message_id
          i.conversation_id i.sources.norm i.tasks.norm = (true, none))) ∧
    (∀ (i : SendDataSourceStatus.Inputs) (e : Env),
      (jstatus (SendDataSourceStatus.execute i e).1 = some (.str "error") →
        (SendDataSourceStatus.execute i e).2 = []) ∧
      (jstatus (SendDataSourceStatus.execute i e).1 =
          some (.str "success") →
        (SendDataSourceStatus.execute i e).2.length = 1 ∧
        validate_rabbitmq_url i.rabbitmq_url i.queue_name = (true, none) ∧
        (SendDataSourceStatus.validate_sync_message
           (normStrip i.connection_id) (normStrip i.tenant_id)
           (normStrip i.status) (normStrip i.error_message)
           ((SendDataSourceStatus.convertDocumentsProcessed
             i.documents_processed).toOption.join) = (true, none) ∨
         SendDataSourceStatus.validate_verification_message
           (normStrip i.connection_id) (normStrip i.tenant_id)
           (SendDataSourceStatus.derivedStatus (normStrip i.status)
             (normStrip i.verification_error))
           i.verification_options.norm (normStrip i.verification_error) =
           (true, none)))) ∧
    (∀ (i : SendDocumentProcessingStatus.Inputs) (e : Env),
      (jstatus (SendDocumentProcessingStatus.execute i e).1 =
          some (.str "error") →
        (SendDocumentProcessingStatus.execute i e).2 = []) ∧
      (jstatus (SendDocumentProcessingStatus.execute i e).1 =
          some (.str "success") →
        (SendDocumentProcessingStatus.execute i e).2.length = 1 ∧
        validate_rabbitmq_url i.rabbitmq_url i.queue_name = (true, none) ∧
        SendDocumentProcessingStatus.validate_message
          (normStrip i.blob_metadata_id) (normStrip i.tenant_id)
          (normStrip i.status) = (true, none))) := by
  refine ⟨fun i e => ?_, fun i e => ?_, fun i e => ?_⟩
  · rcases SendCompleteMessage.complete_execute_cases i e with ⟨s, h⟩ |
      ⟨h1, h2, h3, hc, hif, hpf, h⟩
    · rw [h]
      exact ⟨fun _ => rfl, fun hcontra => by
        simp [jstatus, errObj, lookupKey] at hcontra⟩
    · rw [h]
      refine ⟨fun hcontra => by
        simp [jstatus, lookupKey] at hcontra, fun _ => ⟨rfl, h1, h2, h3⟩⟩
  · rcases SendDataSourceStatus.data_source_execute_cases i e with ⟨s, h⟩ |
      ⟨dp, hdp, h2, hmt, h3, hif, hpf, h⟩ |
      ⟨dp, hdp, h2, hmt, h3, hif, hpf, h⟩
    · rw [h]
      exact ⟨fun _ => rfl, fun hcontra => by
        simp [jstatus, errObj, lookupKey] at hcontra⟩
    · rw [h]
      refine ⟨fun hcontra => by
        simp [jstatus, lookupKey] at hcontra,
        fun _ => ⟨rfl, h2, Or.inl ?_⟩⟩
      rw [hdp]
      exact h3
    · rw [h]
      refine ⟨fun hcontra => by
        simp [jstatus, lookupKey] at hcontra,
        fun _ => ⟨rfl, h2, Or.inr h3⟩⟩
  · rcases SendDocumentProcessingStatus.doc_execute_cases i e with ⟨s, h⟩ |
      ⟨h1, h2, hif, hpf, h⟩
    · rw [h]
      exact ⟨fun _ => rfl, fun hcontra => by
        simp [jstatus, errObj, lookupKey] at hcontra⟩
    · rw [h]
      refine ⟨fun hcontra => by
        simp [jstatus, lookupKey] at hcontra, fun _ => ⟨rfl, h1, h2⟩⟩

/-- C1 witness: at a concrete successful call, exactly one message is
published and the validations hold. -/
theorem publishes_once_on_success_nothing_on_error_witness :
    (SendDocumentProcessingStatus.execute
      ⟨some "amqp://h", some "q", some "b", some "t", none,
       some "processing_completed", none, none⟩
      ⟨none, none, "TS"⟩).2.length = 1 :=
  ((publishes_once_on_success_nothing_on_error.2.2
    ⟨some "amqp://h", some "q", some "b", some "t", none,
     some "processing_completed", none, none⟩
    ⟨none, none, "TS"⟩).2 rfl).1

/-- C2: every execute returns a result object whose status field is
exactly "success" or "error", and every error result carries an "error"
field; failures are returned, never propagated (the embedding is total). -/
theorem result_status_success_or_error :
    (∀ (i : SendCompleteMessage.Inputs) (e : Env),
      (jstatus (SendCompleteMessage.execute i e).1 = some (.str "success") ∨
       jstatus (SendCompleteMessage.execute i e).1 = some (.str "error")) ∧
      (jstatus (SendCompleteMessage.execute i e).1 = some (.str "error") →
        (jerror (SendCompleteMessage.execute i e).1).isSome = true)) ∧
    (∀ (i : SendDataSourceStatus.Inputs) (e : Env),
      (jstatus (SendDataSourceStatus.execute i e).1 =
         some (.str "success") ∨
       jstatus (SendDataSourceStatus.execute i e).1 = some (.str "error")) ∧
      (jstatus (SendDataSourceStatus.execute i e).1 = some (.str "error") →
        (jerror (SendDataSourceStatus.execute i e).1).isSome = true)) ∧
    (∀ (i : SendDocumentProcessingStatus.Inputs) (e : Env),
      (jstatus (SendDocumentProcessingStatus.execute i e).1 =
         some (.str "success") ∨
       jstatus (SendDocumentProcessingStatus.execute i e).1 =
         some (.str "error")) ∧
      (jstatus (SendDocumentProcessingStatus.execute i e).1 =
         some (.str "error") →
        (jerror (SendDocumentProcessingStatus.execute i e).1).isSome =
          true)) := by
  refine ⟨fun i e => ?_, fun i e => ?_, fun i e => ?_⟩
  · rcases SendCompleteMessage.complete_execute_cases i e with ⟨s, h⟩ |
      ⟨h1, h2, h3, hc, hif, hpf, h⟩
    · rw [h]
      exact ⟨Or.inr rfl, fun _ => rfl⟩
    · rw [h]
      exact ⟨Or.inl rfl, fun hcontra => by
        simp [jstatus, lookupKey] at hcontra⟩
  · rcases SendDataSourceStatus.data_source_execute_cases i e with ⟨s, h⟩ |
      ⟨dp, hdp, h2, hmt, h3, hif, hpf, h⟩ |
      ⟨dp, hdp, h2, hmt, h3, hif, hpf, h⟩
    · rw [h]
      exact ⟨Or.inr rfl, fun _ => rfl⟩
    · rw [h]
      exact ⟨Or.inl rfl, fun hcontra => by
        simp [jstatus, lookupKey] at hcontra⟩
    · rw [h]
      exact ⟨Or.inl rfl, fun hcontra => by
        simp [jstatus, lookupKey] at hcontra⟩
  · rcases SendDocumentProcessingStatus.doc_execute_cases i e with ⟨s, h⟩ |
      ⟨h1, h2, hif, hpf, h⟩
    · rw [h]
      exact ⟨Or.inr rfl, fun _ => rfl⟩
    · rw [h]
      exact ⟨Or.inl rfl, fun hcontra => by
        simp [jstatus, lookupKey] at hcontra⟩

/-- C2 witness: a concrete failing call reports an "error" field. -/
theorem result_status_success_or_error_witness :
    (jerror (SendCompleteMessage.execute
      ⟨none, none, none, none, none, .pynone, .pynone, none, none, none,
       none, .pynone, none⟩ ⟨none, none, "TS"⟩).1).isSome = true :=
  (result_status_success_or_error.1
    ⟨none, none, none, none, none, .pynone, .pynone, none, none, none,
     none, .pynone, none⟩ ⟨none, none, "TS"⟩).2 rfl

namespace SendCompleteMessage

theorem assembledMessage_keys (i : Inputs) :
    (assembledMessage i).map Prod.fst =
      ["message_id", "conversation_id", "tenant_id", "response"] ++
      (if (normKeep i.reasoning_content).isSome || i.sources.norm.isSome ||
          i.tasks.norm.isSome || (normTurn i.turn_complete).isSome ||
          (normKeep i.citation_variant).isSome
       then ["metadata"] else []) ++
      (if (normKeep i.response_group_id).isSome
       then ["response_group_id"] else []) := by
  unfold assembledMessage buildMessage buildMetadata
  cases normKeep i.reasoning_content <;> cases i.sources.norm <;>
    cases i.tasks.norm <;> cases normTurn i.turn_complete <;>
    cases normKeep i.citation_variant <;>
    cases normKeep i.response_group_id <;>
    simp [reasoningEntry]

theorem buildMessage_lookup_metadata (mid cid tid text : String)
    (meta : Msg) (rgid : Option String) :
    lookupKey (buildMessage mid cid tid text meta rgid) "metadata" =
      if meta.isEmpty then none else some (.obj meta) := by
  cases meta <;> cases rgid <;> simp [buildMessage, lookupKey]

theorem buildMetadata_keys (rc rt : Option String) (srcs tsks : Option Jval)
    (tc : Option Bool) (cv : Option String) :
    (buildMetadata rc rt srcs tsks tc cv).map Prod.fst =
      (if rc.isSome then ["reasoning"] else []) ++
      (if srcs.isSome then ["sources"] else []) ++
      (if tsks.isSome then ["tasks"] else []) ++
      (if tc.isSome then ["turn_complete"] else []) ++
      (if cv.isSome then ["citation_variant"] else []) := by
  cases rc <;> cases srcs <;> cases tsks <;> cases tc <;> cases cv <;>
    simp [buildMetadata]

theorem buildMetadata_isEmpty (rc rt : Option String)
    (srcs tsks : Option Jval) (tc : Option Bool) (cv : Option String) :
    (buildMetadata rc rt srcs tsks tc cv).isEmpty =
      !(rc.isSome || srcs.isSome || tsks.isSome || tc.isSome ||
        cv.isSome) := by
  cases rc <;> cases srcs <;> cases tsks <;> cases tc <;> cases cv <;>
    simp [buildMetadata]

theorem assembledMessage_metadata_keys (i : Inputs) (md : Msg)
    (h : lookupKey (assembledMessage i) "metadata" = some (.obj md)) :
    md.map Prod.fst =
      (if (normKeep i.reasoning_content).isSome then ["reasoning"]
       else []) ++
      (if i.sources.norm.isSome then ["sources"] else []) ++
      (if i.tasks.norm.isSome then ["tasks"] else []) ++
      (if (normTurn i.turn_complete).isSome then ["turn_complete"]
       else []) ++
      (if (normKeep i.citation_variant).isSome then ["citation_variant"]
       else []) := by
  unfold assembledMessage at h
  rw [buildMessage_lookup_metadata] at h
  by_cases he : (buildMetadata (normKeep i.reasoning_content)
      (normKeep i.reasoning_title) i.sources.norm i.tasks.norm
      (normTurn i.turn_complete) (normKeep i.citation_variant)).isEmpty
  · rw [if_pos he] at h
    cases h
  · rw [if_neg he] at h
    have hmd : md = buildMetadata (normKeep i.reasoning_content)
        (normKeep i.reasoning_title) i.sources.norm i.tasks.norm
        (normTurn i.turn_complete) (normKeep i.citation_variant) := by
      cases h
      rfl
    subst hmd
    exact buildMetadata_keys _ _ _ _ _ _

end SendCompleteMessage

/-- C3: on every successful complete-message call the published message
has exactly the keys message_id, conversation_id, tenant_id, response,
plus metadata exactly when one of the five optional components was
supplied (and metadata then holds exactly the corresponding keys), plus
response_group_id exactly when it was supplied. -/
theorem complete_message_key_set (i : SendCompleteMessage.Inputs) (e : Env)
    (m : Msg) (h : (SendCompleteMessage.execute i e).2 = [m]) :
    m.map Prod.fst =
      ["message_id", "conversation_id", "tenant_id", "response"] ++
      (if (normKeep i.reasoning_content).isSome || i.sources.norm.isSome ||
          i.tasks.norm.isSome ||
          (SendCompleteMessage.normTurn i.turn_complete).isSome ||
          (normKeep i.citation_variant).isSome
       then ["metadata"] else []) ++
      (if (normKeep i.response_group_id).isSome
       then ["response_group_id"] else []) ∧
    (∀ md, lookupKey m "metadata" = some (.obj md) →
      md.map Prod.fst =
        (if (normKeep i.reasoning_content).isSome then ["reasoning"]
         else []) ++
        (if i.sources.norm.isSome then ["sources"] else []) ++
        (if i.tasks.norm.isSome then ["tasks"] else []) ++
        (if (SendCompleteMessage.normTurn i.turn_complete).isSome
         then ["turn_complete"] else []) ++
        (if (normKeep i.citation_variant).isSome then ["citation_variant"]
         else [])) := by
  rcases SendCompleteMessage.complete_execute_cases i e with ⟨s, hx⟩ |
    ⟨h1, h2, h3, hc, hif, hpf, hx⟩
  · rw [hx] at h
    cases h
  · rw [hx] at h
    have hm : m = SendCompleteMessage.assembledMessage i := by
      cases h
      rfl
    subst hm
    exact ⟨SendCompleteMessage.assembledMessage_keys i,
      fun md hmd => SendCompleteMessage.assembledMessage_metadata_keys
        i md hmd⟩

/-- C3 witness: a concrete successful call with reasoning and a
response_group_id supplied. -/
theorem complete_message_key_set_witness :
    ((SendCompleteMessage.execute
      ⟨some "amqp://h", some "q", some "hello", some "think", none,
       .pynone, .pynone, some "12345678-1234-4123-8123-123456789012",
       some "t", some "m", some "c", .pynone, none⟩
      ⟨none, none, "TS"⟩).2.map (List.map Prod.fst)) =
      [["message_id", "conversation_id", "tenant_id", "response",
        "metadata", "response_group_id"]] := by
  have h := complete_message_key_set
    ⟨some "amqp://h", some "q", some "hello", some "think", none,
     .pynone, .pynone, some "12345678-1234-4123-8123-123456789012",
     some "t", some "m", some "c", .pynone, none⟩
    ⟨none, none, "TS"⟩
    ((SendCompleteMessage.execute
      ⟨some "amqp://h", some "q", some "hello", some "think", none,
       .pynone, .pynone, some "12345678-1234-4123-8123-123456789012",
       some "t", some "m", some "c", .pynone, none⟩
      ⟨none, none, "TS"⟩).2.headD []) rfl
  rw [show (SendCompleteMessage.execute
      ⟨some "amqp://h", some "q", some "hello", some "think", none,
       .pynone, .pynone, some "12345678-1234-4123-8123-123456789012",
       some "t", some "m", some "c", .pynone, none⟩
      ⟨none, none, "TS"⟩).2.map (List.map Prod.fst) =
    [((SendCompleteMessage.execute
      ⟨some "amqp://h", some "q", some "hello", some "think", none,
       .pynone, .pynone, some "12345678-1234-4123-8123-123456789012",
       some "t", some "m", some "c", .pynone, none⟩
      ⟨none, none, "TS"⟩).2.headD []).map Prod.fst] from rfl, h.1]
  rfl

/-- C4 counterexample: a successful verification call with no
`verification_options` and no `verification_error` still publishes a
message that carries the `options` and `error` keys (holding null), so the
keys are not absent when the fields are not supplied. -/
theorem verification_options_error_keys_counterexample :
    jstatus (SendDataSourceStatus.execute
      ⟨some "amqp://h", some "q", some "verification", some "conn",
       some "t", some "success", none, .pynone, .pynone, none⟩
      ⟨none, none, "TS"⟩).1 = some (.str "success") ∧
    (SendDataSourceStatus.execute
      ⟨some "amqp://h", some "q", some "verification", some "conn",
       some "t", some "success", none, .pynone, .pynone, none⟩
      ⟨none, none, "TS"⟩).2.map
      (fun m => (lookupKey m "options", lookupKey m "error")) =
      [(some Jval.null, some Jval.null)] :=
  ⟨rfl, rfl⟩

/-- C4 amended: a successful verification message always carries
connection_id, tenant_id, status, and also the options and error keys;
options holds the supplied value when verification_options was supplied
and null otherwise, and error holds the supplied verification_error when
supplied and null otherwise. -/
theorem verification_message_fields (i : SendDataSourceStatus.Inputs)
    (e : Env) (m : Msg)
    (h : (SendDataSourceStatus.execute i e).2 = [m])
    (hmt : normStrip i.message_type = some "verification") :
    lookupKey m "connection_id" =
      some (.str ((normStrip i.connection_id).getD "")) ∧
    lookupKey m "tenant_id" =
      some (.str ((normStrip i.tenant_id).getD "")) ∧
    (lookupKey m "status").isSome = true ∧
    lookupKey m "options" =
      some (match i.verification_options.norm with
            | some v => v
            | none => Jval.null) ∧
    lookupKey m "error" =
      some (if truthyOS (normStrip i.verification_error)
            then .str ((normStrip i.verification_error).getD "")
            else Jval.null) := by
  rcases SendDataSourceStatus.data_source_execute_cases i e with ⟨s, hx⟩ |
    ⟨dp, hdp, h2, hmt2, h3, hif, hpf, hx⟩ |
    ⟨dp, hdp, h2, hmt2, h3, hif, hpf, hx⟩
  · rw [hx] at h
    cases h
  · rw [hmt] at hmt2
    simp at hmt2
  · rw [hx] at h
    have hm : m = SendDataSourceStatus.buildVerificationMessage
        (normStrip i.connection_id) (normStrip i.tenant_id)
        (SendDataSourceStatus.derivedStatus (normStrip i.status)
          (normStrip i.verification_error))
        i.verification_options.norm (normStrip i.verification_error) := by
      cases h
      rfl
    subst hm
    refine ⟨?_, ?_, ?_, ?_, ?_⟩ <;>
      simp [SendDataSourceStatus.buildVerificationMessage, lookupKey]

/-- C4 amended witness: concrete verification call with options
supplied. -/
theorem verification_message_fields_witness :
    lookupKey ((SendDataSourceStatus.execute
      ⟨some "amqp://h", some "q", some "verification", some "conn",
       some "t", some "success", none, .pynone,
       .fromStr (.obj [("k", .str "v")]), none⟩
      ⟨none, none, "TS"⟩).2.headD []) "options" =
      some (.obj [("k", .str "v")]) :=
  (verification_message_fields
    ⟨some "amqp://h", some "q", some "verification", some "conn",
     some "t", some "success", none, .pynone,
     .fromStr (.obj [("k", .str "v")]), none⟩
    ⟨none, none, "TS"⟩
    ((SendDataSourceStatus.execute
      ⟨some "amqp://h", some "q", some "verification", some "conn",
       some "t", some "success", none, .pynone,
       .fromStr (.obj [("k", .str "v")]), none⟩
      ⟨none, none, "TS"⟩).2.headD []) rfl rfl).2.2.2.1

theorem scrubTimestampFields_append (l1 l2 : List (String × Jval)) :
    scrubTimestampFields (l1 ++ l2) =
      scrubTimestampFields l1 ++ scrubTimestampFields l2 := by
  induction l1 with
  | nil => rfl
  | cons kv rest ih =>
    rcases kv with ⟨k, v⟩
    by_cases hk : k = "timestamp"
    · simp [scrubTimestampFields, hk, ih]
    · simp [scrubTimestampFields, hk, ih]

theorem scrub_buildDocMessage (b t s u pm em : Option String)
    (n n' : String) :
    scrubTimestampFields
      (SendDocumentProcessingStatus.buildDocMessage b t s u pm em n) =
    scrubTimestampFields
      (SendDocumentProcessingStatus.buildDocMessage b t s u pm em n') := by
  unfold SendDocumentProcessingStatus.buildDocMessage
  rw [scrubTimestampFields_append, scrubTimestampFields_append,
    scrubTimestampFields_append, scrubTimestampFields_append,
    scrubTimestampFields_append, scrubTimestampFields_append]
  simp [scrubTimestampFields, scrubTimestamp]

theorem scrub_buildSyncMessage (c t s em : Option String) (dp : Option Int)
    (n n' : String) :
    scrubTimestampFields
      (SendDataSourceStatus.buildSyncMessage c t s em dp n) =
    scrubTimestampFields
      (SendDataSourceStatus.buildSyncMessage c t s em dp n') := by
  unfold SendDataSourceStatus.buildSyncMessage
  rw [scrubTimestampFields_append, scrubTimestampFields_append,
    scrubTimestampFields_append, scrubTimestampFields_append]
  simp [scrubTimestampFields, scrubTimestamp]

/-- C5 counterexample: two document-processing calls with identical inputs,
both with a succeeding publish hand-off, return different results and
publish different messages when the clock readings of the two runs differ
(the message embeds `datetime.now()`), so the activities are not pure
functions of their inputs alone. -/
theorem determinism_counterexample :
    jstatus (SendDocumentProcessingStatus.execute
      ⟨some "amqp://h", some "q", some "b", some "t", none,
       some "processing_completed", none, none⟩
      ⟨none, none, "2024-01-01T00:00:00+00:00"⟩).1 =
      some (.str "success") ∧
    jstatus (SendDocumentProcessingStatus.execute
      ⟨some "amqp://h", some "q", some "b", some "t", none,
       some "processing_completed", none, none⟩
      ⟨none, none, "2024-01-02T00:00:00+00:00"⟩).1 =
      some (.str "success") ∧
    SendDocumentProcessingStatus.execute
      ⟨some "amqp://h", some "q", some "b", some "t", none,
       some "processing_completed", none, none⟩
      ⟨none, none, "2024-01-01T00:00:00+00:00"⟩ ≠
    SendDocumentProcessingStatus.execute
      ⟨some "amqp://h", some "q", some "b", some "t", none,
       some "processing_completed", none, none⟩
      ⟨none, none, "2024-01-02T00:00:00+00:00"⟩ := by
  refine ⟨rfl, rfl, fun hcontra => ?_⟩
  have h1 : (SendDocumentProcessingStatus.execute
      ⟨some "amqp://h", some "q", some "b", some "t", none,
       some "processing_completed", none, none⟩
      ⟨none, none, "2024-01-01T00:00:00+00:00"⟩).2.map
      (fun m => lookupKey m "timestamp") =
      [some (.str "2024-01-01T00:00:00+00:00")] := rfl
  have h2 : (SendDocumentProcessingStatus.execute
      ⟨some "amqp://h", some "q", some "b", some "t", none,
       some "processing_completed", none, none⟩
      ⟨none, none, "2024-01-02T00:00:00+00:00"⟩).2.map
      (fun m => lookupKey m "timestamp") =
      [some (.str "2024-01-02T00:00:00+00:00")] := rfl
  rw [hcontra, h2] at h1
  injection h1 with ha _
  injection ha with hb
  injection hb with hc
  exact absurd hc (by decide)

/-- C5 amended: each activity is deterministic given its inputs, the clock
reading and the outcomes of the external calls: the complete-message
activity is independent of the clock, and the two timestamped activities
agree on everything outside the timestamp field across two runs whose
external-call outcomes agree. -/
theorem determinism_up_to_timestamp :
    (∀ (i : SendCompleteMessage.Inputs) (e₁ e₂ : Env),
      e₁.installFail = e₂.installFail → e₁.pubFail = e₂.pubFail →
      SendCompleteMessage.execute i e₁ = SendCompleteMessage.execute i e₂) ∧
    (∀ (i : SendDataSourceStatus.Inputs) (e₁ e₂ : Env),
      e₁.installFail = e₂.installFail → e₁.pubFail = e₂.pubFail →
      scrubPair (SendDataSourceStatus.execute i e₁) =
        scrubPair (SendDataSourceStatus.execute i e₂)) ∧
    (∀ (i : SendDocumentProcessingStatus.Inputs) (e₁ e₂ : Env),
      e₁.installFail = e₂.installFail → e₁.pubFail = e₂.pubFail →
      scrubPair (SendDocumentProcessingStatus.execute i e₁) =
        scrubPair (SendDocumentProcessingStatus.execute i e₂)) := by
  refine ⟨fun i e₁ e₂ h1 h2 => ?_, fun i e₁ e₂ h1 h2 => ?_,
    fun i e₁ e₂ h1 h2 => ?_⟩
  · simp only [SendCompleteMessage.execute, h1, h2]
  · rcases SendDataSourceStatus.convertDocumentsProcessed_cases
      i.documents_processed with ⟨dp, hdp⟩ | hdp
    · rcases validate_rabbitmq_url_cases i.rabbitmq_url i.queue_name with
        hu | ⟨mu, hu⟩
      · rcases Bool.eq_false_or_eq_true
          (truthyOS (normStrip i.message_type) &&
           ((normStrip i.message_type).getD "" == "sync" ||
            (normStrip i.message_type).getD "" == "verification"))
          with hmt | hmt
        · have hmt' := hmt
          rw [Bool.and_eq_true] at hmt'
          by_cases hs : (normStrip i.message_type).getD "" = "sync"
          · rcases SendDataSourceStatus.validate_sync_message_cases
              (normStrip i.connection_id) (normStrip i.tenant_id)
              (normStrip i.status) (normStrip i.error_message) dp
              with h3 | ⟨m3, h3⟩
            · rcases hif : e₁.installFail with _ | ex
              · rcases hpf : e₁.pubFail with _ | ex
                · have hif2 : e₂.installFail = none := h1 ▸ hif
                  have hpf2 : e₂.pubFail = none := h2 ▸ hpf
                  simp [SendDataSourceStatus.execute, hdp, hu, hmt, hmt'.1, hs,
                    h3, SendDataSourceStatus.finish, hif, hpf, hif2, hpf2,
                    scrubPair, scrubTimestamp, scrubTimestampFields,
                    scrub_buildSyncMessage (normStrip i.connection_id)
                      (normStrip i.tenant_id) (normStrip i.status)
                      (normStrip i.error_message) dp e₁.now e₂.now]
                · have hpf2 : e₂.pubFail = some ex := h2 ▸ hpf
                  simp [SendDataSourceStatus.execute, hdp, hu, hmt, hmt'.1, hs,
                    h3, SendDataSourceStatus.finish, hif, h1 ▸ hif, hpf,
                    hpf2, scrubPair]
              · have hif2 : e₂.installFail = some ex := h1 ▸ hif
                simp [SendDataSourceStatus.execute, hdp, hu, hmt, hmt'.1, hs, h3,
                  SendDataSourceStatus.finish, hif, hif2, scrubPair]
            · simp [SendDataSourceStatus.execute, hdp, hu, hmt, hmt'.1, hs, h3,
                scrubPair]
          · rcases SendDataSourceStatus.validate_verification_message_cases
              (normStrip i.connection_id) (normStrip i.tenant_id)
              (SendDataSourceStatus.derivedStatus (normStrip i.status)
                (normStrip i.verification_error))
              i.verification_options.norm (normStrip i.verification_error)
              with h3 | ⟨m3, h3⟩
            · rcases hif : e₁.installFail with _ | ex
              · rcases hpf : e₁.pubFail with _ | ex
                · have hif2 : e₂.installFail = none := h1 ▸ hif
                  have hpf2 : e₂.pubFail = none := h2 ▸ hpf
                  simp [SendDataSourceStatus.execute, hdp, hu, hmt, hmt'.1, hs,
                    h3, SendDataSourceStatus.finish, hif, hpf, hif2, hpf2,
                    scrubPair]
                · have hpf2 : e₂.pubFail = some ex := h2 ▸ hpf
                  simp [SendDataSourceStatus.execute, hdp, hu, hmt, hmt'.1, hs,
                    h3, SendDataSourceStatus.finish, hif, h1 ▸ hif, hpf,
                    hpf2, scrubPair]
              · have hif2 : e₂.installFail = some ex := h1 ▸ hif
                simp [SendDataSourceStatus.execute, hdp, hu, hmt, hmt'.1, hs, h3,
                  SendDataSourceStatus.finish, hif, hif2, scrubPair]
            · simp [SendDataSourceStatus.execute, hdp, hu, hmt, hmt'.1, hs, h3,
                scrubPair]
        · simp [SendDataSourceStatus.execute, hdp, hu, hmt, scrubPair]
      · simp [SendDataSourceStatus.execute, hdp, hu, scrubPair]
    · simp [SendDataSourceStatus.execute, hdp, scrubPair]
  · rcases validate_rabbitmq_url_cases i.rabbitmq_url i.queue_name with
      hu | ⟨mu, hu⟩
    · rcases SendDocumentProcessingStatus.validate_message_cases
        (normStrip i.blob_metadata_id) (normStrip i.tenant_id)
        (normStrip i.status) with h3 | ⟨m3, h3⟩
      · rcases hif : e₁.installFail with _ | ex
        · rcases hpf : e₁.pubFail with _ | ex
          · have hif2 : e₂.installFail = none := h1 ▸ hif
            have hpf2 : e₂.pubFail = none := h2 ▸ hpf
            simp [SendDocumentProcessingStatus.execute, hu, h3, hif, hpf,
              hif2, hpf2, scrubPair, scrubTimestamp, scrubTimestampFields,
              scrub_buildDocMessage (normStrip i.blob_metadata_id)
                (normStrip i.tenant_id) (normStrip i.status)
                (normStrip i.user_id) (normStrip i.processed_markdown)
                (normStrip i.error_message) e₁.now e₂.now]
          · have hpf2 : e₂.pubFail = some ex := h2 ▸ hpf
            simp [SendDocumentProcessingStatus.execute, hu, h3, hif,
              h1 ▸ hif, hpf, hpf2, scrubPair]
        · have hif2 : e₂.installFail = some ex := h1 ▸ hif
          simp [SendDocumentProcessingStatus.execute, hu, h3, hif, hif2,
            scrubPair]
      · simp [SendDocumentProcessingStatus.execute, hu, h3, scrubPair]
    · simp [SendDocumentProcessingStatus.execute, hu, scrubPair]

/-- C5 amended witness: the complete-message activity returns the same
result under two different clock readings. -/
theorem determinism_up_to_timestamp_witness :
    SendCompleteMessage.execute
      ⟨some "amqp://h", some "q", some "hello", none, none, .pynone,
       .pynone, none, some "t", some "m", some "c", .pynone, none⟩
      ⟨none, none, "2024-01-01T00:00:00+00:00"⟩ =
    SendCompleteMessage.execute
      ⟨some "amqp://h", some "q", some "hello", none, none, .pynone,
       .pynone, none, some "t", some "m", some "c", .pynone, none⟩
      ⟨none, none, "2024-01-02T00:00:00+00:00"⟩ :=
  determinism_up_to_timestamp.1
    ⟨some "amqp://h", some "q", some "hello", none, none, .pynone,
     .pynone, none, some "t", some "m", some "c", .pynone, none⟩
    ⟨none, none, "2024-01-01T00:00:00+00:00"⟩
    ⟨none, none, "2024-01-02T00:00:00+00:00"⟩ rfl rfl

/-- Two strings with different first characters differ. -/
theorem ne_of_head (a b : String) (h : a.data.head? ≠ b.data.head?) :
    a ≠ b :=
  fun he => h (he ▸ rfl)

/-- The first character of an append is the first of its left part. -/
theorem head_data_append {c : Char} (u v : String)
    (h : u.data.head? = some c) : (u ++ v).data.head? = some c := by
  rw [String.data_append]
  cases hu : u.data with
  | nil => rw [hu] at h; cases h
  | cons a as => rw [hu] at h; cases h; rfl

namespace SendCompleteMessage

theorem validateSourcesFrom_msg (xs : List Jval) (n : Nat) (s : String)
    (h : validateSourcesFrom xs n = (false, some s)) :
    s ≠ "response_group_id must be a valid UUID v4" := by
  induction xs generalizing n with
  | nil => cases h
  | cons j rest ih =>
    unfold validateSourcesFrom at h
    rcases j with _ | _ | _ | _ | _ | fields
    case obj =>
      dsimp only at h
      split at h
      · cases h
        refine ne_of_head _ _ ?_
        rw [@head_data_append 's' _ _ (@head_data_append 's' _ _ (by decide))]
        decide
      · split at h
        · cases h
          refine ne_of_head _ _ ?_
          rw [@head_data_append 's' _ _ (@head_data_append 's' _ _ (by decide))]
          decide
        · exact ih (n + 1) h
    all_goals
      cases h
      refine ne_of_head _ _ ?_
      rw [@head_data_append 's' _ _ (@head_data_append 's' _ _ (by decide))]
      decide

theorem validateTasksFrom_msg (xs : List Jval) (n : Nat) (s : String)
    (h : validateTasksFrom xs n = (false, some s)) :
    s ≠ "response_group_id must be a valid UUID v4" := by
  induction xs generalizing n with
  | nil => cases h
  | cons j rest ih =>
    unfold validateTasksFrom at h
    rcases j with _ | _ | _ | _ | _ | fields
    case obj =>
      dsimp only at h
      split at h
      · cases h
        refine ne_of_head _ _ ?_
        rw [@head_data_append 't' _ _ (@head_data_append 't' _ _ (by decide))]
        decide
      · split at h
        · cases h
          refine ne_of_head _ _ ?_
          rw [@head_data_append 't' _ _ (@head_data_append 't' _ _ (by decide))]
          decide
        · split at h
          · split at h
            · exact ih (n + 1) h
            · exact ih (n + 1) h
            · cases h
              refine ne_of_head _ _ ?_
              rw [@head_data_append 't' _ _ (@head_data_append 't' _ _ (by decide))]
              decide
          · cases h
            refine ne_of_head _ _ ?_
            rw [@head_data_append 't' _ _ (@head_data_append 't' _ _ (by decide))]
            decide
    all_goals
      cases h
      refine ne_of_head _ _ ?_
      rw [@head_data_append 't' _ _ (@head_data_append 't' _ _ (by decide))]
      decide

theorem validate_parameters_msg (t m c : Option String)
    (srcs tsks : Option Jval) (s : String)
    (h : validate_parameters t m c srcs tsks = (false, some s)) :
    s ≠ "response_group_id must be a valid UUID v4" := by
  unfold validate_parameters at h
  split at h
  · cases h; decide
  · split at h
    · cases h; decide
    · split at h
      · cases h; decide
      · split at h
        · rename_i msg hsrc
          cases h
          split at hsrc
          · cases hsrc
          · exact validateSourcesFrom_msg _ 0 s hsrc
          · cases hsrc; decide
        · split at h
          · cases h
          · exact validateTasksFrom_msg _ 0 s h
          · cases h; decide

theorem validate_rabbitmq_url_msg0 (u q : Option String) (s : String)
    (h : validate_rabbitmq_url u q = (false, some s)) :
    s ≠ "response_group_id must be a valid UUID v4" := by
  unfold validate_rabbitmq_url at h
  split at h
  · cases h; decide
  · split at h
    · cases h; decide
    · split at h
      · cases h; decide
      · cases h

end SendCompleteMessage

/-- Strings with equal character data are equal. -/
theorem strEqOfData (a b : String) (h : a.data = b.data) : a = b :=
  congrArg String.mk h

/-- A common "Validation failed: " prefix cancels. -/
theorem valErr_msg_cancel {m t : String}
    (h : "Validation failed: " ++ m = "Validation failed: " ++ t) :
    m = t := by
  have hd := congrArg String.data h
  rw [String.data_append, String.data_append] at hd
  exact strEqOfData _ _ (List.append_cancel_left hd)

namespace SendCompleteMessage

theorem buildMessage_lookup_rgid (mid cid tid text : String) (meta : Msg)
    (r : String) :
    lookupKey (buildMessage mid cid tid text meta (some r))
      "response_group_id" = some (.str r) := by
  cases meta <;> simp [buildMessage, lookupKey]

end SendCompleteMessage

/-- C6: when a non-empty response_group_id is supplied and the external
calls go through, the call returns the response_group_id validation error
with nothing published exactly when the value is not a canonical UUID v4;
when it is one, the response_group_id validation passes and any published
message carries the value verbatim. -/
theorem response_group_id_gate (i : SendCompleteMessage.Inputs) (e : Env)
    (r : String) (hr : i.response_group_id = some r) (hner : r ≠ "")
    (hif : e.installFail = none) (hpf : e.pubFail = none) :
    (((SendCompleteMessage.execute i e).1 =
        errObj "Validation failed: response_group_id must be a valid UUID v4" ∧
      (SendCompleteMessage.execute i e).2 = []) ↔
      isCanonicalUuid4 r = false) ∧
    (isCanonicalUuid4 r = true →
      SendCompleteMessage.validate_response_group_id
        (normKeep i.response_group_id) = (true, none) ∧
      ∀ m, (SendCompleteMessage.execute i e).2 = [m] →
        lookupKey m "response_group_id" = some (.str r)) := by
  have htr : truthyOS i.response_group_id = true := by
    rw [hr]
    show (!r.isEmpty) = true
    cases hie : r.isEmpty
    · rfl
    · exact absurd ((String.isEmpty_iff r).mp hie) hner
  have hnk : normKeep i.response_group_id = some r := by
    unfold normKeep
    rw [htr]
    simp [hr]
  have htr2 : truthyOS (some r) = true := by
    have h := htr
    rw [hr] at h
    exact h
  cases hcv : isCanonicalUuid4 r with
  | false =>
    have hval : SendCompleteMessage.validate_response_group_id
        (normKeep i.response_group_id) =
        (false, some "response_group_id must be a valid UUID v4") := by
      rw [hnk]
      simp [SendCompleteMessage.validate_response_group_id, htr2, hcv]
    have hex : SendCompleteMessage.execute i e =
        (valErrObj (some "response_group_id must be a valid UUID v4"),
         []) := by
      simp only [SendCompleteMessage.execute, hval]
    refine ⟨iff_of_true ?_ rfl, fun hcontra => by cases hcontra⟩
    rw [hex]
    exact ⟨rfl, rfl⟩
  | true =>
    have hval : SendCompleteMessage.validate_response_group_id
        (normKeep i.response_group_id) = (true, none) := by
      rw [hnk]
      simp [SendCompleteMessage.validate_response_group_id, htr2, hcv]
    constructor
    · refine iff_of_false ?_ (by simp [hcv])
      rintro ⟨hres, hpub⟩
      rcases validate_rabbitmq_url_cases i.rabbitmq_url i.queue_name with
        hu | ⟨mu, hu⟩
      · rcases SendCompleteMessage.validate_parameters_cases i.tenant_id
          i.message_id i.conversation_id i.sources.norm i.tasks.norm with
          hp | ⟨mp, hp⟩
        · cases hc : SendCompleteMessage.hasContent (i.text_content.getD "")
            (normKeep i.reasoning_content) i.sources.norm i.tasks.norm
          · have hex : SendCompleteMessage.execute i e =
                (errObj "Validation failed: at least one of text_content, reasoning_content, sources, or tasks is required",
                 []) := by
              simp only [SendCompleteMessage.execute, hval, hu, hp, hc]
              rfl
            rw [hex] at hres
            simp only [errObj, Jval.obj.injEq, List.cons.injEq,
              Prod.mk.injEq, Jval.str.injEq, and_true, true_and] at hres
            exact absurd hres (by decide)
          · have hex := SendCompleteMessage.complete_execute_cases i e
            rcases hex with ⟨s, hx⟩ | ⟨_, _, _, _, _, _, hx⟩
            · rw [hx] at hres hpub
              -- the error taken must have come from one of the
              -- validation steps; replay the branch structure
              have hform : SendCompleteMessage.execute i e =
                  (.obj [("status", .str "success"),
                         ("message_id", .str (i.message_id.getD "")),
                         ("message",
                           .obj (SendCompleteMessage.assembledMessage i))],
                   [SendCompleteMessage.assembledMessage i]) := by
                simp only [SendCompleteMessage.execute, hval, hu, hp, hc,
                  hif, hpf]
                rfl
              rw [hform] at hx
              simp at hx
            · rw [hx] at hres
              simp only [Jval.obj.injEq, List.cons.injEq, Prod.mk.injEq,
                Jval.str.injEq, errObj, true_and] at hres
              exact absurd hres.1 (by decide)
        · have hex : SendCompleteMessage.execute i e =
              (valErrObj (some mp), []) := by
            simp only [SendCompleteMessage.execute, hval, hu, hp]
          rw [hex] at hres
          simp only [valErrObj, errObj, Jval.obj.injEq, List.cons.injEq,
            Prod.mk.injEq, Jval.str.injEq, and_true, true_and,
            Option.getD_some] at hres
          have hlit : "Validation failed: response_group_id must be a valid UUID v4" =
              "Validation failed: " ++
                "response_group_id must be a valid UUID v4" := rfl
          rw [hlit] at hres
          exact absurd (valErr_msg_cancel hres)
            (SendCompleteMessage.validate_parameters_msg _ _ _ _ _ _ hp)
      · have hex : SendCompleteMessage.execute i e =
            (valErrObj (some mu), []) := by
          simp only [SendCompleteMessage.execute, hval, hu]
        rw [hex] at hres
        simp only [valErrObj, errObj, Jval.obj.injEq, List.cons.injEq,
          Prod.mk.injEq, Jval.str.injEq, and_true, true_and,
          Option.getD_some] at hres
        have hlit : "Validation failed: response_group_id must be a valid UUID v4" =
            "Validation failed: " ++
              "response_group_id must be a valid UUID v4" := rfl
        rw [hlit] at hres
        exact absurd (valErr_msg_cancel hres)
          (SendCompleteMessage.validate_rabbitmq_url_msg0 _ _ _ hu)
    · intro _
      refine ⟨hval, fun m hm => ?_⟩
      rcases SendCompleteMessage.complete_execute_cases i e with ⟨s, hx⟩ |
        ⟨_, _, _, _, _, _, hx⟩
      · rw [hx] at hm
        cases hm
      · rw [hx] at hm
        have hme : m = SendCompleteMessage.assembledMessage i := by
          cases hm
          rfl
        subst hme
        unfold SendCompleteMessage.assembledMessage
        rw [hnk]
        exact SendCompleteMessage.buildMessage_lookup_rgid _ _ _ _ _ _

/-- C6 witness: a concrete call with a valid UUID v4 publishes it
verbatim, and one with an invalid value returns the validation error. -/
theorem response_group_id_gate_witness :
    lookupKey ((SendCompleteMessage.execute
      ⟨some "amqp://h", some "q", some "hello", none, none, .pynone,
       .pynone, some "12345678-1234-4123-8123-123456789012", some "t",
       some "m", some "c", .pynone, none⟩
      ⟨none, none, "TS"⟩).2.headD []) "response_group_id" =
      some (.str "12345678-1234-4123-8123-123456789012") :=
  (((response_group_id_gate
    ⟨some "amqp://h", some "q", some "hello", none, none, .pynone,
     .pynone, some "12345678-1234-4123-8123-123456789012", some "t",
     some "m", some "c", .pynone, none⟩
    ⟨none, none, "TS"⟩ "12345678-1234-4123-8123-123456789012" rfl
    (by decide) rfl rfl).2 rfl).2
    ((SendCompleteMessage.execute
      ⟨some "amqp://h", some "q", some "hello", none, none, .pynone,
       .pynone, some "12345678-1234-4123-8123-123456789012", some "t",
       some "m", some "c", .pynone, none⟩
      ⟨none, none, "TS"⟩).2.headD []) rfl)

/-- A list is a `listIsPrefix` of itself followed by anything. -/
theorem listIsPrefix_self_append (l r : List Char) :
    listIsPrefix l (l ++ r) = true := by
  induction l with
  | nil => rfl
  | cons c cs ih => simp [listIsPrefix, ih]

/-- `p ++ u` starts with `p`. -/
theorem startsWith_append_self (p u : String) :
    strStartsWith (p ++ u) p = true := by
  unfold strStartsWith
  rw [String.data_append]
  exact listIsPrefix_self_append _ _

theorem isValidationError_valErrObj (m : Option String) :
    isValidationError (valErrObj m) = true := by
  simp [isValidationError, valErrObj, errObj, jerror, lookupKey,
    startsWith_append_self]

namespace SendDocumentProcessingStatus

theorem validate_message_true (b t s : Option String)
    (h : validate_message b t s = (true, none)) :
    truthyOS b = true ∧ truthyOS t = true ∧ truthyOS s = true ∧
    (s.getD "" = "processing_completed" ∨
     s.getD "" = "processing_failed") := by
  unfold validate_message at h
  split at h
  · cases h
  · split at h
    · cases h
    · split at h
      · cases h
      · split at h
        · cases h
        · rename_i h1 h2 h3 h4
          refine ⟨by simpa using h1, by simpa using h2, by simpa using h3,
            ?_⟩
          by_cases hpc : s.getD "" = "processing_completed"
          · exact Or.inl hpc
          · exact Or.inr ((by simpa using h4 : ¬s.getD "" =
              "processing_completed" → s.getD "" = "processing_failed")
              hpc)

theorem buildDocMessage_keys (b t s u pm em : Option String) (n : String) :
    (buildDocMessage b t s u pm em n).map Prod.fst =
      ["type", "blob_metadata_id", "tenant_id", "status", "timestamp"] ++
      (if truthyOS u then ["user_id"] else []) ++
      (if truthyOS pm then ["processed_markdown"] else []) ++
      (if truthyOS em then ["error_message"] else []) := by
  rcases Bool.eq_false_or_eq_true (truthyOS u) with h1 | h1 <;>
    rcases Bool.eq_false_or_eq_true (truthyOS pm) with h2 | h2 <;>
    rcases Bool.eq_false_or_eq_true (truthyOS em) with h3 | h3 <;>
    simp [buildDocMessage, h1, h2, h3]

end SendDocumentProcessingStatus

/-- C7: every successfully published document-processing message carries
type "document_processing", the three validated identifiers, and a
timestamp, with user_id, processed_markdown and error_message keys exactly
when supplied; and whenever blob_metadata_id, tenant_id or status is
missing or the status is outside the two processing values, the call
returns a validation error and publishes nothing. -/
theorem doc_processing_message_shape :
    (∀ (i : SendDocumentProcessingStatus.Inputs) (e : Env) (m : Msg),
      (SendDocumentProcessingStatus.execute i e).2 = [m] →
      lookupKey m "type" = some (.str "document_processing") ∧
      m.map Prod.fst =
        ["type", "blob_metadata_id", "tenant_id", "status", "timestamp"] ++
        (if truthyOS (normStrip i.user_id) then ["user_id"] else []) ++
        (if truthyOS (normStrip i.processed_markdown)
         then ["processed_markdown"] else []) ++
        (if truthyOS (normStrip i.error_message) then ["error_message"]
         else [])) ∧
    (∀ (i : SendDocumentProcessingStatus.Inputs) (e : Env),
      (truthyOS (normStrip i.blob_metadata_id) = false ∨
       truthyOS (normStrip i.tenant_id) = false ∨
       truthyOS (normStrip i.status) = false ∨
       ((normStrip i.status).getD "" ≠ "processing_completed" ∧
        (normStrip i.status).getD "" ≠ "processing_failed")) →
      isValidationError (SendDocumentProcessingStatus.execute i e).1 =
        true ∧
      (SendDocumentProcessingStatus.execute i e).2 = []) := by
  constructor
  · intro i e m h
    rcases SendDocumentProcessingStatus.doc_execute_cases i e with ⟨s, hx⟩ |
      ⟨h1, h2, hif, hpf, hx⟩
    · rw [hx] at h
      cases h
    · rw [hx] at h
      have hm : m = SendDocumentProcessingStatus.buildDocMessage
          (normStrip i.blob_metadata_id) (normStrip i.tenant_id)
          (normStrip i.status) (normStrip i.user_id)
          (normStrip i.processed_markdown) (normStrip i.error_message)
          e.now := by
        cases h
        rfl
      subst hm
      exact ⟨rfl, SendDocumentProcessingStatus.buildDocMessage_keys
        _ _ _ _ _ _ _⟩
  · intro i e hbad
    rcases SendDocumentProcessingStatus.validate_message_cases
      (normStrip i.blob_metadata_id) (normStrip i.tenant_id)
      (normStrip i.status) with htrue | ⟨mm, hfalse⟩
    · rcases SendDocumentProcessingStatus.validate_message_true _ _ _
        htrue with ⟨hb, ht, hs, hsv⟩
      rcases hbad with h | h | h | ⟨hna, hnb⟩
      · rw [h] at hb; cases hb
      · rw [h] at ht; cases ht
      · rw [h] at hs; cases hs
      · rcases hsv with h | h
        · exact absurd h hna
        · exact absurd h hnb
    · rcases validate_rabbitmq_url_cases i.rabbitmq_url i.queue_name with
        hu | ⟨mu, hu⟩
      · have hex : SendDocumentProcessingStatus.execute i e =
            (valErrObj (some mm), []) := by
          simp only [SendDocumentProcessingStatus.execute, hu, hfalse]
        rw [hex]
        exact ⟨isValidationError_valErrObj _, rfl⟩
      · have hex : SendDocumentProcessingStatus.execute i e =
            (valErrObj (some mu), []) := by
          simp only [SendDocumentProcessingStatus.execute, hu]
        rw [hex]
        exact ⟨isValidationError_valErrObj _, rfl⟩

/-- C7 witness: a concrete successful call and its key list. -/
theorem doc_processing_message_shape_witness :
    ((SendDocumentProcessingStatus.execute
      ⟨some "amqp://h", some "q", some "b", some "t", none,
       some "processing_failed", none, some "oops"⟩
      ⟨none, none, "TS"⟩).2.headD []).map Prod.fst =
      ["type", "blob_metadata_id", "tenant_id", "status", "timestamp",
       "error_message"] :=
  (doc_processing_message_shape.1
    ⟨some "amqp://h", some "q", some "b", some "t", none,
     some "processing_failed", none, some "oops"⟩
    ⟨none, none, "TS"⟩
    ((SendDocumentProcessingStatus.execute
      ⟨some "amqp://h", some "q", some "b", some "t", none,
       some "processing_failed", none, some "oops"⟩
      ⟨none, none, "TS"⟩).2.headD []) rfl).2

/-- C8: in the verification branch with an empty or missing status, the
published status is derived: "failed" when verification_error is supplied
(non-blank after stripping) and "success" otherwise. -/
theorem verification_status_autoderived
    (i : SendDataSourceStatus.Inputs) (e : Env) (m : Msg)
    (h : (SendDataSourceStatus.execute i e).2 = [m])
    (hmt : normStrip i.message_type = some "verification")
    (hst : truthyOS (normStrip i.status) = false) :
    lookupKey m "status" =
      some (.str (if truthyOS (normStrip i.verification_error)
                  then "failed" else "success")) := by
  rcases SendDataSourceStatus.data_source_execute_cases i e with ⟨s, hx⟩ |
    ⟨dp, hdp, h2, hmt2, h3, hif, hpf, hx⟩ |
    ⟨dp, hdp, h2, hmt2, h3, hif, hpf, hx⟩
  · rw [hx] at h
    cases h
  · rw [hmt] at hmt2
    simp at hmt2
  · rw [hx] at h
    have hm : m = SendDataSourceStatus.buildVerificationMessage
        (normStrip i.connection_id) (normStrip i.tenant_id)
        (SendDataSourceStatus.derivedStatus (normStrip i.status)
          (normStrip i.verification_error))
        i.verification_options.norm (normStrip i.verification_error) := by
      cases h
      rfl
    subst hm
    rcases Bool.eq_false_or_eq_true
      (truthyOS (normStrip i.verification_error)) with hver | hver <;>
      simp [SendDataSourceStatus.buildVerificationMessage,
        SendDataSourceStatus.derivedStatus, lookupKey, hst, hver]

/-- C8 witness: empty status with a verification error derives "failed". -/
theorem verification_status_autoderived_witness :
    lookupKey ((SendDataSourceStatus.execute
      ⟨some "amqp://h", some "q", some "verification", some "conn",
       some "t", none, none, .pynone, .pynone, some "boom"⟩
      ⟨none, none, "TS"⟩).2.headD []) "status" = some (.str "failed") :=
  verification_status_autoderived
    ⟨some "amqp://h", some "q", some "verification", some "conn",
     some "t", none, none, .pynone, .pynone, some "boom"⟩
    ⟨none, none, "TS"⟩
    ((SendDataSourceStatus.execute
      ⟨some "amqp://h", some "q", some "verification", some "conn",
       some "t", none, none, .pynone, .pynone, some "boom"⟩
      ⟨none, none, "TS"⟩).2.headD []) rfl rfl rfl

/-- C9: the non-negativity rule for documents_processed applies only to
sync_completed: with status sync_started or sync_failed and a negative
documents_processed, sync validation passes and any published sync message
carries the negative value. -/
theorem negative_documents_processed_passes
    (i : SendDataSourceStatus.Inputs) (e : Env) (n : Int)
    (hconn : truthyOS (normStrip i.connection_id) = true)
    (hten : truthyOS (normStrip i.tenant_id) = true)
    (hst : normStrip i.status = some "sync_started" ∨
           normStrip i.status = some "sync_failed")
    (hdp : SendDataSourceStatus.convertDocumentsProcessed
      i.documents_processed = .ok (some n))
    (hneg : n < 0)
    (hmt : normStrip i.message_type = some "sync") :
    SendDataSourceStatus.validate_sync_message (normStrip i.connection_id)
      (normStrip i.tenant_id) (normStrip i.status)
      (normStrip i.error_message) (some n) = (true, none) ∧
    ∀ m, (SendDataSourceStatus.execute i e).2 = [m] →
      lookupKey m "documents_processed" = some (.num n) := by
  have hval : SendDataSourceStatus.validate_sync_message
      (normStrip i.connection_id) (normStrip i.tenant_id)
      (normStrip i.status) (normStrip i.error_message) (some n) =
      (true, none) := by
    rcases hst with h | h <;>
      simp [SendDataSourceStatus.validate_sync_message, hconn, hten, h,
        show truthyOS (some "sync_started") = true from rfl,
        show truthyOS (some "sync_failed") = true from rfl]
  refine ⟨hval, fun m hm => ?_⟩
  rcases SendDataSourceStatus.data_source_execute_cases i e with ⟨s, hx⟩ |
    ⟨dp, hdp2, h2, hmt2, h3, hif, hpf, hx⟩ |
    ⟨dp, hdp2, h2, hmt2, h3, hif, hpf, hx⟩
  · rw [hx] at hm
    cases hm
  · rw [hx] at hm
    have hdpn : dp = some n := by
      rw [hdp] at hdp2
      cases hdp2
      rfl
    subst hdpn
    have hmm : m = SendDataSourceStatus.buildSyncMessage
        (normStrip i.connection_id) (normStrip i.tenant_id)
        (normStrip i.status) (normStrip i.error_message) (some n)
        e.now := by
      cases hm
      rfl
    subst hmm
    rcases Bool.eq_false_or_eq_true (truthyOS (normStrip i.error_message))
      with hem | hem <;>
      simp [SendDataSourceStatus.buildSyncMessage, lookupKey, hem]
  · rw [hmt] at hmt2
    simp at hmt2

/-- C9 witness: a concrete sync_failed call with documents_processed -5
publishes the negative value. -/
theorem negative_documents_processed_passes_witness :
    lookupKey ((SendDataSourceStatus.execute
      ⟨some "amqp://h", some "q", some "sync", some "conn", some "t",
       some "sync_failed", none, .ofStr "-5", .pynone, none⟩
      ⟨none, none, "TS"⟩).2.headD []) "documents_processed" =
      some (.num (-5)) :=
  (negative_documents_processed_passes
    ⟨some "amqp://h", some "q", some "sync", some "conn", some "t",
     some "sync_failed", none, .ofStr "-5", .pynone, none⟩
    ⟨none, none, "TS"⟩ (-5) rfl rfl (Or.inr rfl) rfl (by decide)
    rfl).2
    ((SendDataSourceStatus.execute
      ⟨some "amqp://h", some "q", some "sync", some "conn", some "t",
       some "sync_failed", none, .ofStr "-5", .pynone, none⟩
      ⟨none, none, "TS"⟩).2.headD []) rfl

/-- C10: with valid broker fields, a passing response_group_id validation
and valid identifiers, a call whose text_content is empty or
whitespace-only and which supplies none of reasoning_content, sources or
tasks returns the content-requirement validation error and publishes
nothing. -/
theorem empty_content_rejected (i : SendCompleteMessage.Inputs) (e : Env)
    (hvu : validate_rabbitmq_url i.rabbitmq_url i.queue_name =
      (true, none))
    (hvr : SendCompleteMessage.validate_response_group_id
      (normKeep i.response_group_id) = (true, none))
    (hten : truthyOS i.tenant_id = true)
    (hmid : truthyOS i.message_id = true)
    (hcid : truthyOS i.conversation_id = true)
    (htext : strStrip (i.text_content.getD "") = "")
    (hrc : normKeep i.reasoning_content = none)
    (hsrc : i.sources.norm = none)
    (htsk : i.tasks.norm = none) :
    SendCompleteMessage.execute i e =
      (errObj "Validation failed: at least one of text_content, reasoning_content, sources, or tasks is required",
       []) := by
  have hvp : SendCompleteMessage.validate_parameters i.tenant_id
      i.message_id i.conversation_id i.sources.norm i.tasks.norm =
      (true, none) := by
    simp [SendCompleteMessage.validate_parameters, hten, hmid, hcid,
      hsrc, htsk]
  have hcontent : SendCompleteMessage.hasContent (i.text_content.getD "")
      (normKeep i.reasoning_content) i.sources.norm i.tasks.norm =
      false := by
    simp [SendCompleteMessage.hasContent, htext, hrc, hsrc, htsk,
      show ("" : String).isEmpty = true from rfl]
  simp only [SendCompleteMessage.execute, hvr, hvu, hvp, hcontent]
  rfl

/-- C10 witness: a whitespace-only text with valid identifiers is
rejected with the content error. -/
theorem empty_content_rejected_witness :
    SendCompleteMessage.execute
      ⟨some "amqp://h", some "q", some "   ", none, none, .pynone,
       .pynone, none, some "t", some "m", some "c", .pynone, none⟩
      ⟨none, none, "TS"⟩ =
      (errObj "Validation failed: at least one of text_content, reasoning_content, sources, or tasks is required",
       []) :=
  empty_content_rejected
    ⟨some "amqp://h", some "q", some "   ", none, none, .pynone,
     .pynone, none, some "t", some "m", some "c", .pynone, none⟩
    ⟨none, none, "TS"⟩ rfl rfl rfl rfl rfl (by decide) rfl rfl rfl
